import Mathlib

/-!
# Shallow embedding of the portal-tunneler NAT hole-punching core

This development embeds the puncher state machine of the repository into
Lean 4 and settles the stated properties against it.

Sources embedded:
* `src/juan-puncher-sm/src/state.rs`: `LaneStatus`, `LaneState`,
  `BlockReason`, the per-state `sent` flags.
* `src/juan-puncher-sm/src/state_machine.rs`: `TransitionRequest` and the
  `process_packet` / `process_sent` transition functions.
* `src/portal-puncher-sm/src/packet.rs`: the packet codec
  (`PREAMBLE`, `PacketData::write_to`, `PacketData::parse`).
* `src/portal-puncher-sm/src/lib.rs`: the `Puncher` engine
  (`new`, `received_from`, `send_to`, `send_failed`, `tick`, `poll`,
  `block_lane`, `set_selected_lane`).
* `src/portal/src/puncher/connection_code.rs`: `ConnectionCode`
  serialization, deserialization and `calc_checksum`.

Machine integers (`u8`, `u16`, `u64`) are modelled as `Nat` with explicit
bounds or `% 2 ^ w` reductions where the source performs wrapping
arithmetic.  Rust panics (code paths that abort the process) are modelled
by `Option`/`none` results.  Real-time values (`Instant`, `Duration`) are
not representable in a pure embedding and do not influence any of the
properties below; the fields derived from them are omitted, and the
clock-dependent branch of `poll` takes the comparison outcome as a
boolean input.
-/

namespace PortalPuncher

/-! ## Lane status (src/juan-puncher-sm/src/state.rs, `LaneStatus`) -/

/-- The wire status of a lane. `Connecting = 1`, `Establishing = 2`,
`Selected = 3`, `Blocked = 255`. -/
inductive LaneStatus where
  | connecting
  | establishing
  | selected
  | blocked
deriving DecidableEq, Repr

/-- `LaneStatus::from_u8`. -/
def LaneStatus.fromU8 (value : Nat) : Option LaneStatus :=
  if value = 1 then some .connecting
  else if value = 2 then some .establishing
  else if value = 3 then some .selected
  else if value = 255 then some .blocked
  else none

/-- `LaneStatus::into_u8` (the `#[repr(u8)]` discriminants). -/
def LaneStatus.intoU8 : LaneStatus → Nat
  | .connecting => 1
  | .establishing => 2
  | .selected => 3
  | .blocked => 255

/-! ## Packet codec (src/portal-puncher-sm/src/packet.rs) -/

/-- `PacketDataError`. -/
inductive PacketDataError where
  | packetTooShort
  | wrongPreamble
  | invalidLaneStatus
deriving DecidableEq, Repr

/-- The constant 8-byte preamble. -/
def PREAMBLE : List Nat := [0x38, 0x08, 0x42, 0x8b, 0x11, 0x39, 0x42, 0x53]

/-- `PREAMBLE_SIZE`. -/
def PREAMBLE_SIZE : Nat := PREAMBLE.length

/-- `LANE_STATUS_SIZE`. -/
def LANE_STATUS_SIZE : Nat := 1

/-- `PACKET_HEADER_SIZE`. -/
def PACKET_HEADER_SIZE : Nat := PREAMBLE_SIZE + LANE_STATUS_SIZE

/-- `MAX_REASONABLE_PAYLOAD`. -/
def MAX_REASONABLE_PAYLOAD : Nat := 1400

/-- `MAX_REASONABLE_APPLICATION_DATA = 1400 - 9 = 1391`. -/
def MAX_REASONABLE_APPLICATION_DATA : Nat := MAX_REASONABLE_PAYLOAD - PACKET_HEADER_SIZE

/-- `PacketData`: a parsed or to-be-written puncher packet.  Byte strings
are modelled as lists of `Nat` (each byte `< 256` in the source). -/
structure PacketData where
  laneStatus : LaneStatus
  applicationData : List Nat
deriving DecidableEq, Repr

/-- `PacketData::new`: panics (modelled as `none`) when the application
data exceeds `MAX_REASONABLE_APPLICATION_DATA`. -/
def PacketData.new? (laneStatus : LaneStatus) (applicationData : List Nat) :
    Option PacketData :=
  if applicationData.length > MAX_REASONABLE_APPLICATION_DATA then none
  else some ⟨laneStatus, applicationData⟩

/-- `PacketData::write_to`: the source serializes into a caller-supplied
buffer and returns the written length; functionally the packet's bytes are
the preamble, the status byte, then the application data. -/
def PacketData.writeTo (p : PacketData) : List Nat :=
  PREAMBLE ++ [p.laneStatus.intoU8] ++ p.applicationData

/-- `PacketData::parse`. -/
def PacketData.parse (buf : List Nat) : Except PacketDataError PacketData :=
  if buf.length < PACKET_HEADER_SIZE then .error .packetTooShort
  else if buf.take PREAMBLE_SIZE ≠ PREAMBLE then .error .wrongPreamble
  else
    match LaneStatus.fromU8 (buf.getD PREAMBLE_SIZE 0) with
    | none => .error .invalidLaneStatus
    | some laneStatus => .ok ⟨laneStatus, buf.drop PACKET_HEADER_SIZE⟩

/-! ## Network addresses (std types used by the engine) -/

/-- `std::net::IpAddr`, with octet lists for the two variants
(4 and 16 octets respectively, each octet `< 256`). -/
inductive IpAddr where
  | v4 (octets : List Nat)
  | v6 (octets : List Nat)
deriving DecidableEq, Repr

/-- `std::net::SocketAddr`: an IP address plus a `u16` port. -/
structure SocketAddr where
  ip : IpAddr
  port : Nat
deriving DecidableEq, Repr

/-! ## Lane state (src/juan-puncher-sm/src/state.rs) -/

/-- `BlockReason`.  `std::io::Error` payloads are opaque to the state
machine and modelled as `Nat` tokens. -/
inductive BlockReason where
  | receiveError (e : Nat)
  | sendError (e : Nat)
  | badPacket (e : PacketDataError)
  | interference (addr : SocketAddr)
  | blockedByRemote
  | unexpectedTransition
deriving DecidableEq, Repr

/-- `LaneState`.  The `ConnectingState` / `EstablishingState` /
`SelectedState` payload structs each hold exactly the `sent : bool`
field, inlined here. -/
inductive LaneState where
  | connecting (sent : Bool)
  | establishing (sent : Bool)
  | selected (sent : Bool)
  | closed
  | blocked (reason : BlockReason)
deriving DecidableEq, Repr

/-- `LaneState::new`: the initial `Connecting` state with `sent: false`. -/
def LaneState.new : LaneState := .connecting false

/-- `LaneState::is_selected`. -/
def LaneState.isSelected : LaneState → Bool
  | .selected _ => true
  | _ => false

/-- `LaneState::is_closed`. -/
def LaneState.isClosed : LaneState → Bool
  | .closed => true
  | _ => false

/-- `LaneState::is_blocked`. -/
def LaneState.isBlocked : LaneState → Bool
  | .blocked _ => true
  | _ => false

/-- `LaneState::is_active`: neither blocked nor closed. -/
def LaneState.isActive : LaneState → Bool
  | .connecting _ | .establishing _ | .selected _ => true
  | .closed | .blocked _ => false

/-- `LaneState::status`: panics on `Closed` (modelled as `none`). -/
def LaneState.status : LaneState → Option LaneStatus
  | .connecting _ => some .connecting
  | .establishing _ => some .establishing
  | .selected _ => some .selected
  | .closed => none
  | .blocked _ => some .blocked

/-! ## State machine transitions (src/juan-puncher-sm/src/state_machine.rs) -/

/-- `TransitionRequest`. -/
inductive TransitionRequest where
  | remain
  | establishing
  | selected
deriving DecidableEq, Repr

/-- `ConnectingState::process_packet`.  The match arms are translated in
source order (guards on `Establishing` first). -/
def ConnectingState.processPacket (sent : Bool) (isSelector hasSelected : Bool)
    (receivedLaneStatus : LaneStatus) : Except BlockReason TransitionRequest :=
  let canSelect := !isSelector && !hasSelected
  match receivedLaneStatus with
  | .establishing =>
      if !sent then .error .unexpectedTransition
      else if canSelect then .ok .selected
      else .ok .establishing
  | .connecting => .ok .establishing
  | .selected => .error .unexpectedTransition
  | .blocked => .error .blockedByRemote

/-- `EstablishingState::process_packet`, match arms in source order
(guards on `Selected` first). -/
def EstablishingState.processPacket (sent : Bool) (isSelector hasSelected : Bool)
    (receivedLaneStatus : LaneStatus) : Except BlockReason TransitionRequest :=
  let canSelect := !isSelector && !hasSelected
  match receivedLaneStatus with
  | .selected =>
      if !sent || canSelect then .error .unexpectedTransition
      else .ok .selected
  | .establishing =>
      if canSelect then .ok .selected
      else .ok .remain
  | .connecting => .ok .remain
  | .blocked => .error .blockedByRemote

/-- `SelectedState::process_packet` (`has_selected` is unused there). -/
def SelectedState.processPacket (sent : Bool) (isSelector : Bool)
    (receivedLaneStatus : LaneStatus) : Except BlockReason TransitionRequest :=
  match receivedLaneStatus with
  | .connecting | .establishing => .ok .remain
  | .selected =>
      if isSelector && !sent then .error .unexpectedTransition
      else .ok .remain
  | .blocked => .error .blockedByRemote

/-- `LaneState::process_packet`: dispatch to the per-state node.  The
source dispatch in `src/juan-puncher-sm/src/state_machine.rs` has a
`Blocked => Ok(Remain)` arm and (in that stale snapshot) no `Closed` arm;
`src/portal-puncher-sm`'s own `state_machine.rs` is absent from the tree.
Modelled from the spec: `process_packet`-driven transitions are a no-op
for terminal lanes, so the `Closed` arm also yields `Remain` (the engine
never reaches either arm: `received_from` drops packets for inactive
lanes first). -/
def LaneState.processPacket (state : LaneState) (isSelector hasSelected : Bool)
    (receivedLaneStatus : LaneStatus) : Except BlockReason TransitionRequest :=
  match state with
  | .connecting sent => ConnectingState.processPacket sent isSelector hasSelected receivedLaneStatus
  | .establishing sent => EstablishingState.processPacket sent isSelector hasSelected receivedLaneStatus
  | .selected sent => SelectedState.processPacket sent isSelector receivedLaneStatus
  | .blocked _ => .ok .remain
  | .closed => .ok .remain

/-- `LaneState::process_sent`: sets `sent := true` in the current active
state, no-op for terminal states. -/
def LaneState.processSent : LaneState → LaneState
  | .connecting _ => .connecting true
  | .establishing _ => .establishing true
  | .selected _ => .selected true
  | .closed => .closed
  | .blocked reason => .blocked reason

/-! ## Puncher engine (src/portal-puncher-sm/src/lib.rs)

Panicking paths are modelled by `Option`: a `none` result is a Rust
panic (the process aborts, so no post-state exists). -/

/-- `SendInfo` returned by `Puncher::send_to`. -/
structure SendInfo where
  fromPort : Nat
  toAddr : SocketAddr
  length : Nat
deriving DecidableEq, Repr

/-- A `Lane`: its state plus the `needs_send` flag. -/
structure Lane where
  state : LaneState
  needsSend : Bool
deriving DecidableEq, Repr

/-- `Lane::new`. -/
def Lane.new : Lane := ⟨LaneState.new, true⟩

instance : Inhabited Lane := ⟨Lane.new⟩

/-- The result of `Puncher::poll`. -/
inductive PuncherAction where
  | wait
  | connect (localPort remotePort : Nat)
  | listen (localPort remotePort : Nat)
  | failed
  | timeout
deriving DecidableEq, Repr

/-- The `Puncher` engine state.  `my_port_start`, `remote_port_start` and
`lane_count` are `NonZeroU16` in the source (`1 ≤ _ ≤ 65535`); the timing
fields (`tick_period`, `next_tick_instant`, `timeout_instant`) are
real-time values with no influence on the modelled behaviour and are
omitted. -/
structure Puncher where
  myPortStart : Nat
  remoteAddress : IpAddr
  remotePortStart : Nat
  laneCount : Nat
  openLanesCount : Nat
  lanes : List Lane
  isServer : Bool
  selectedLaneIndex : Option Nat
deriving DecidableEq, Repr

/-- `u16` saturating addition (`NonZeroU16::saturating_add`). -/
def saturatingAddU16 (a b : Nat) : Nat := min (a + b) 65535

/-- The lane a `local_port` belongs to:
`local_port.checked_sub(my_port_start)` guarded by `i < lanes.len()`.
`none` is the out-of-range panic in `received_from` / `send_failed`. -/
def Puncher.laneIndexOfPort (p : Puncher) (localPort : Nat) : Option Nat :=
  if p.myPortStart ≤ localPort ∧ localPort - p.myPortStart < p.lanes.length then
    some (localPort - p.myPortStart)
  else none

/-- The lane at index `i` (all source indexing sites are guarded so that
`i` is in bounds). -/
def Puncher.laneAt (p : Puncher) (i : Nat) : Lane := p.lanes.getD i default

/-- `Puncher::new`.  `my_port_start.checked_add(lane_count)` on
`NonZeroU16` is `None` exactly when the sum exceeds `u16::MAX = 65535`,
and the source panics in that case (likewise for `remote_port_start`). -/
def Puncher.new (isServer : Bool) (myPortStart : Nat) (remoteAddress : IpAddr)
    (remotePortStart : Nat) (laneCount : Nat) : Option Puncher :=
  if 65535 < myPortStart + laneCount then none
  else if 65535 < remotePortStart + laneCount then none
  else some
    { myPortStart
      remoteAddress
      remotePortStart
      laneCount
      openLanesCount := laneCount
      lanes := List.replicate laneCount Lane.new
      isServer
      selectedLaneIndex := none }

/-- `Puncher::block_lane`: panics (`none`) when the index is out of
bounds or the lane is not active; otherwise the lane becomes
`Blocked(reason)`, `open_lanes_count` is decremented and `needs_send`
cleared. -/
def Puncher.blockLane (p : Puncher) (laneIndex : Nat) (reason : BlockReason) :
    Option Puncher :=
  if laneIndex < p.lanes.length ∧ (p.laneAt laneIndex).state.isActive then
    some { p with
      lanes := p.lanes.set laneIndex ⟨.blocked reason, false⟩
      openLanesCount := p.openLanesCount - 1 }
  else none

/-- The loop body of `Puncher::set_selected_lane`: walks the lanes (with
`j` the index of the list head), keeps the selected lane untouched,
clears every other lane's `needs_send`, closes every other active lane,
and returns the new lanes together with how many lanes were closed (the
total decrement applied to `open_lanes_count`). -/
def closeOtherLanes (selIndex : Nat) : Nat → List Lane → List Lane × Nat
  | _, [] => ([], 0)
  | j, lane :: rest =>
    let (rest', closedCount) := closeOtherLanes selIndex (j + 1) rest
    if j = selIndex then (lane :: rest', closedCount)
    else if lane.state.isActive then (⟨.closed, false⟩ :: rest', closedCount + 1)
    else (⟨lane.state, false⟩ :: rest', closedCount)

/-- `Puncher::set_selected_lane`: panics (`none`) when a lane has
already been selected. -/
def Puncher.setSelectedLane (p : Puncher) (laneIndex : Nat) : Option Puncher :=
  match p.selectedLaneIndex with
  | some _ => none
  | none =>
      let (lanes', closedCount) := closeOtherLanes laneIndex 0 p.lanes
      some { p with
        selectedLaneIndex := some laneIndex
        lanes := lanes'
        openLanesCount := p.openLanesCount - closedCount }

/-- The `io::Result<(&[u8], SocketAddr)>` input of `received_from`;
`std::io::Error` is an opaque `Nat` token. -/
inductive RecvResult where
  | ok (buf : List Nat) (srcAddr : SocketAddr)
  | err (e : Nat)
deriving DecidableEq, Repr

/-- `Puncher::received_from`.  Returns `none` on the panicking paths
(out-of-range port, or the internal `block_lane` / `set_selected_lane`
panics), otherwise the new engine state together with the
`Option<&[u8]>` application payload handed back to the host. -/
def Puncher.receivedFrom (p : Puncher) (recvResult : RecvResult) (localPort : Nat) :
    Option (Puncher × Option (List Nat)) :=
  match p.laneIndexOfPort localPort with
  | none => none
  | some laneIndex =>
    let lane := p.laneAt laneIndex
    if !lane.state.isActive then some (p, none)
    else match recvResult with
      | .err e => (p.blockLane laneIndex (.receiveError e)).map (fun p' => (p', none))
      | .ok buf srcAddr =>
        if srcAddr.ip ≠ p.remoteAddress
            ∨ srcAddr.port < p.remotePortStart
            ∨ p.remotePortStart + p.laneCount ≤ srcAddr.port then
          (p.blockLane laneIndex (.interference srcAddr)).map (fun p' => (p', none))
        else match PacketData.parse buf with
          | .error packetError =>
            (p.blockLane laneIndex (.badPacket packetError)).map (fun p' => (p', none))
          | .ok packetData =>
            if packetData.laneStatus = .blocked then
              (p.blockLane laneIndex .blockedByRemote).map
                (fun p' => (p', some packetData.applicationData))
            else
              let hasSelected := p.selectedLaneIndex.isSome
              match lane.state.processPacket p.isServer hasSelected packetData.laneStatus with
              | .error blockReason =>
                (p.blockLane laneIndex blockReason).map
                  (fun p' => (p', some packetData.applicationData))
              | .ok .remain => some (p, some packetData.applicationData)
              | .ok .establishing =>
                some ({ p with lanes := p.lanes.set laneIndex ⟨.establishing false, true⟩ },
                  some packetData.applicationData)
              | .ok .selected =>
                let p' := { p with
                  lanes := p.lanes.set laneIndex ⟨.selected false, p.isServer⟩ }
                (p'.setSelectedLane laneIndex).map
                  (fun p'' => (p'', some packetData.applicationData))

/-- `Puncher::get_next_lane_index_needing_resend` as a pure scan: finds
the first lane with `needs_send == true`, clears the flag, and returns
its index with the updated lanes. -/
def nextLaneNeedingResend : List Lane → Option (Nat × List Lane)
  | [] => none
  | lane :: rest =>
    if lane.needsSend then some (0, ⟨lane.state, false⟩ :: rest)
    else (nextLaneNeedingResend rest).map (fun (i, rest') => (i + 1, lane :: rest'))

/-- `Puncher::send_to`.  `none` models the panics: `LaneState::status` on
a `Closed` lane, or `PacketData::new` on oversized application data.  The
caller-supplied buffer is modelled as always large enough (its size is a
host concern independent of the engine). -/
def Puncher.sendTo (p : Puncher) (applicationData : List Nat) :
    Option (Puncher × Option SendInfo) :=
  match nextLaneNeedingResend p.lanes with
  | none => some (p, none)
  | some (laneIndex, lanes') =>
    let lane' : Lane := ⟨(p.laneAt laneIndex).state.processSent, false⟩
    match lane'.state.status with
    | none => none
    | some laneStatus =>
      match PacketData.new? laneStatus applicationData with
      | none => none
      | some packetData =>
        some ({ p with lanes := lanes'.set laneIndex lane' },
          some { fromPort := saturatingAddU16 p.myPortStart laneIndex
                 toAddr := ⟨p.remoteAddress, p.remotePortStart + laneIndex⟩
                 length := packetData.writeTo.length })

/-- `Puncher::send_failed`: panics (`none`) on an out-of-range port;
blocks the lane with `SendError` if it is still active. -/
def Puncher.sendFailed (p : Puncher) (localPort : Nat) (e : Nat) : Option Puncher :=
  match p.laneIndexOfPort localPort with
  | none => none
  | some laneIndex =>
    if (p.laneAt laneIndex).state.isActive then
      p.blockLane laneIndex (.sendError e)
    else some p

/-- `Puncher::tick`.  The `next_tick_instant` update touches only the
omitted timing fields.  With a selected lane the source indexes
`lanes[selected_index]` (panic, i.e. `none`, if out of bounds); otherwise
every lane's `needs_send` is recomputed from its state. -/
def Puncher.tick (p : Puncher) : Option Puncher :=
  match p.selectedLaneIndex with
  | some selectedIndex =>
    if selectedIndex < p.lanes.length then
      some { p with
        lanes := p.lanes.set selectedIndex ⟨(p.laneAt selectedIndex).state, p.isServer⟩ }
    else none
  | none =>
    some { p with
      lanes := p.lanes.map (fun lane =>
        ⟨lane.state,
          match lane.state with
          | .connecting _ | .establishing _ => true
          | .selected _ => p.isServer
          | .blocked _ | .closed => false⟩) }

/-- `Puncher::poll`.  The method takes `&self` and cannot modify the
engine; the `Instant::now() >= timeout_instant` comparison is supplied as
the boolean `timedOut`. -/
def Puncher.poll (p : Puncher) (timedOut : Bool) : PuncherAction :=
  match p.selectedLaneIndex with
  | some selectedIndex =>
    let localPort := saturatingAddU16 p.myPortStart selectedIndex
    let remotePort := saturatingAddU16 p.remotePortStart selectedIndex
    if p.isServer then .listen localPort remotePort
    else .connect localPort remotePort
  | none =>
    if p.openLanesCount = 0 then .failed
    else if timedOut then .timeout
    else .wait

/-! ## Operation sequences and reachable engine states -/

/-- One host-driven engine operation. -/
inductive Op where
  | receivedFrom (recvResult : RecvResult) (localPort : Nat)
  | sendTo (applicationData : List Nat)
  | sendFailed (localPort : Nat) (e : Nat)
  | tick
  | poll (timedOut : Bool)
deriving DecidableEq, Repr

/-- Apply one operation; `none` is a panic.  `poll` borrows the engine
immutably (`&self`) and leaves the state unchanged. -/
def Puncher.step (p : Puncher) : Op → Option Puncher
  | .receivedFrom r port => (p.receivedFrom r port).map Prod.fst
  | .sendTo d => (p.sendTo d).map Prod.fst
  | .sendFailed port e => p.sendFailed port e
  | .tick => p.tick
  | .poll _ => some p

/-- Run a list of operations left to right. -/
def Puncher.run (p : Puncher) : List Op → Option Puncher
  | [] => some p
  | op :: ops =>
    match p.step op with
    | none => none
    | some p' => p'.run ops

/-- The engine states reachable by construction followed by any sequence
of non-panicking operations. -/
inductive Reachable : Puncher → Prop where
  | init {isServer myPortStart remoteAddress remotePortStart laneCount p} :
      Puncher.new isServer myPortStart remoteAddress remotePortStart laneCount = some p →
      Reachable p
  | step {p op p'} : Reachable p → p.step op = some p' → Reachable p'

/-! ## Connection code (src/portal/src/puncher/connection_code.rs) -/

/-- `u8::count_ones` for a byte value. -/
def popCountU8 (n : Nat) : Nat :=
  (List.range 8).foldl (fun acc k => acc + n / 2 ^ k % 2) 0

/-- `u16::to_le_bytes`. -/
def u16ToLeBytes (n : Nat) : List Nat := [n % 256, n / 256 % 256]

/-- `u64::to_le_bytes`. -/
def u64ToLeBytes (n : Nat) : List Nat :=
  (List.range 8).map (fun k => n / 256 ^ k % 256)

/-- `u16::from_le_bytes`. -/
def u16FromLeBytes (b0 b1 : Nat) : Nat := b0 + 256 * b1

/-- `calc_checksum`: a `0x69`-seeded XOR byte in the low half and the
wrapping (`mod 256`) popcount sum in the high half
(`(xored as u16) | ((ones_count as u16) << 8)`). -/
def calcChecksum (buf : List Nat) : Nat :=
  let onesCount := buf.foldl (fun acc b => (acc + popCountU8 b) % 256) 0
  let xored := buf.foldl (fun acc b => Nat.xor acc b) 0x69
  Nat.lor xored (onesCount <<< 8)

/-- `ConnectionCode`. -/
structure ConnectionCode where
  address : IpAddr
  portStart : Nat
  laneCount : Nat
  timestamp : Nat
deriving DecidableEq, Repr

/-- `DeserializeError`. -/
inductive DeserializeError where
  | invalidBase64
  | unexpectedEnd
  | invalidIpTypeByte
  | zeroLaneCount
  | overflowingLaneCount
  | badChecksum
  | tooLong
deriving DecidableEq, Repr

/-- `ConnectionCode::serialize_to_bytes`: the IP-type byte and octets,
then `port_start`, `lane_count` (little endian `u16`s), the `u64`
timestamp, and the 2-byte checksum over everything before it. -/
def ConnectionCode.serializeToBytes (c : ConnectionCode) : List Nat :=
  let body :=
    (match c.address with
     | .v4 octets => 4 :: octets
     | .v6 octets => 6 :: octets)
    ++ u16ToLeBytes c.portStart
    ++ u16ToLeBytes c.laneCount
    ++ u64ToLeBytes c.timestamp
  body ++ u16ToLeBytes (calcChecksum body)

/-- `ConnectionCode::deserialize_from_bytes`.  `check_buf_len` is the
`buf.len() >= min_len` guard; `port_start.overflowing_add(lane_count)`
overflows exactly when the sum exceeds `u16::MAX = 65535`. -/
def ConnectionCode.deserializeFromBytes (buf : List Nat) :
    Except DeserializeError ConnectionCode :=
  if buf.length < 1 then .error .unexpectedEnd
  else
    match
      (if buf.getD 0 0 = 4 then
        if buf.length < 5 then .error .unexpectedEnd
        else .ok (IpAddr.v4 ((buf.drop 1).take 4), 5)
      else if buf.getD 0 0 = 6 then
        if buf.length < 17 then .error .unexpectedEnd
        else .ok (IpAddr.v6 ((buf.drop 1).take 16), 17)
      else (.error .invalidIpTypeByte :
        Except DeserializeError (IpAddr × Nat))) with
    | .error e => .error e
    | .ok (address, index) =>
      if buf.length < index + 2 then .error .unexpectedEnd
      else
        let portStart := u16FromLeBytes (buf.getD index 0) (buf.getD (index + 1) 0)
        let index := index + 2
        if buf.length < index + 2 then .error .unexpectedEnd
        else
          let laneCount := u16FromLeBytes (buf.getD index 0) (buf.getD (index + 1) 0)
          if laneCount = 0 then .error .zeroLaneCount
          else
            let index := index + 2
            if 65535 < portStart + laneCount then .error .overflowingLaneCount
            else if buf.length < index + 8 then .error .unexpectedEnd
            else
              let timestamp :=
                (List.range 8).foldr
                  (fun k acc => buf.getD (index + k) 0 * 256 ^ k + acc) 0
              let index := index + 8
              if buf.length < index + 2 then .error .unexpectedEnd
              else
                let checksum := u16FromLeBytes (buf.getD index 0) (buf.getD (index + 1) 0)
                if checksum ≠ calcChecksum (buf.take index) then .error .badChecksum
                else
                  let index := index + 2
                  if buf.length ≠ index then .error .tooLong
                  else .ok ⟨address, portStart, laneCount, timestamp⟩

/-- The number of active (`Connecting`/`Establishing`/`Selected`) lanes
in a lane list. -/
def activeLanesCount : List Lane → Nat
  | [] => 0
  | lane :: rest => (if lane.state.isActive then 1 else 0) + activeLanesCount rest

/-- The engine invariant maintained by every non-panicking operation:

* `count`: `open_lanes_count` equals the number of active
  (`Connecting`/`Establishing`/`Selected`) lanes;
* `selNone`: before any selection, no lane is in the `Selected` state;
* `selSome`: once lane `k` is selected, `k` is a valid index, lane `k`
  is not `Closed`, and every other lane is inactive
  (`Closed` or `Blocked`);
* `closedFlag`: a `Closed` lane never has `needs_send` set. -/
structure PuncherInv (p : Puncher) : Prop where
  count : p.openLanesCount = activeLanesCount p.lanes
  selNone : p.selectedLaneIndex = none →
    ∀ j, j < p.lanes.length → (p.laneAt j).state.isSelected = false
  selSome : ∀ k, p.selectedLaneIndex = some k →
    k < p.lanes.length ∧ (p.laneAt k).state.isClosed = false ∧
    ∀ j, j < p.lanes.length → j ≠ k → (p.laneAt j).state.isActive = false
  closedFlag : ∀ j, j < p.lanes.length →
    (p.laneAt j).state.isClosed = true → (p.laneAt j).needsSend = false

/-- Decidable equality for `Except`, so that concrete runs of the
fallible operations can be checked by `decide`. -/
instance {ε α} [DecidableEq ε] [DecidableEq α] : DecidableEq (Except ε α) :=
  fun a b =>
    match a, b with
    | .ok x, .ok y =>
      if h : x = y then .isTrue (by rw [h]) else .isFalse (by intro hc; cases hc; exact h rfl)
    | .error x, .error y =>
      if h : x = y then .isTrue (by rw [h]) else .isFalse (by intro hc; cases hc; exact h rfl)
    | .ok _, .error _ => .isFalse (by intro hc; cases hc)
    | .error _, .ok _ => .isFalse (by intro hc; cases hc)

/-! ## General list helpers -/

theorem getD_set_self {α} (l : List α) (i : Nat) (x d : α) (h : i < l.length) :
    (l.set i x).getD i d = x := by
  simp [List.getD, List.getElem?_set_self h]

theorem getD_set_ne {α} (l : List α) (i j : Nat) (x d : α) (h : j ≠ i) :
    (l.set i x).getD j d = l.getD j d := by
  simp [List.getD, List.getElem?_set_ne (Ne.symm h)]

theorem getD_take {α} (l : List α) (i n : Nat) (d : α) (h : i < n) :
    (l.take n).getD i d = l.getD i d := by
  simp [List.getD, List.getElem?_take, h]

theorem getD_map {α β} (l : List α) (f : α → β) (j : Nat) (d : β) (d' : α)
    (hj : j < l.length) : (l.map f).getD j d = f (l.getD j d') := by
  simp [List.getD, List.getElem?_map, List.getElem?_eq_getElem hj]

theorem getD_replicate {α} (n i : Nat) (a d : α) (h : i < n) :
    (List.replicate n a).getD i d = a := by
  simp [List.getD, List.getElem?_replicate, h]

theorem countP_set {α} (p : α → Bool) (d : α) :
    ∀ (l : List α) (i : Nat) (x : α), i < l.length →
    (l.set i x).countP p + (if p (l.getD i d) then 1 else 0)
      = l.countP p + (if p x then 1 else 0) := by
  intro l
  induction l with
  | nil => intro i x h; simp at h
  | cons a t ih =>
    intro i x h
    cases i with
    | zero => simp [List.countP_cons]; omega
    | succ i =>
      simp only [List.set_cons_succ, List.countP_cons, List.getD_cons_succ]
      have := ih i x (by simpa using h)
      omega

theorem countP_replicate {α} (p : α → Bool) (n : Nat) (a : α) :
    (List.replicate n a).countP p = if p a then n else 0 := by
  induction n with
  | zero => simp
  | succ n ih => simp [List.replicate_succ, List.countP_cons, ih]; split <;> simp

theorem xor_two_pow_ne (b k : Nat) : Nat.xor b (2 ^ k) ≠ b := by
  intro h
  have h2 : b ^^^ (b ^^^ 2 ^ k) = b ^^^ b := congrArg (Nat.xor b) h
  rw [Nat.xor_cancel_left, Nat.xor_self] at h2
  exact absurd h2 (Nat.two_pow_pos k).ne'

/-! ## Basic facts about the state machine pieces -/

theorem laneIndexOfPort_lt {p : Puncher} {port i : Nat}
    (h : p.laneIndexOfPort port = some i) : i < p.lanes.length := by
  unfold Puncher.laneIndexOfPort at h
  split at h
  · rename_i hcond
    cases h
    exact hcond.2
  · cases h

/-- `process_sent` keeps the constructor of the state: activity,
selectedness and closedness are unchanged, terminal states are unchanged
entirely. -/
theorem processSent_preserves (s : LaneState) :
    s.processSent.isActive = s.isActive ∧ s.processSent.isSelected = s.isSelected ∧
    s.processSent.isClosed = s.isClosed ∧ (s.isActive = false → s.processSent = s) := by
  cases s <;> simp [LaneState.processSent, LaneState.isActive, LaneState.isSelected,
    LaneState.isClosed]

/-! ## Claim C2 -/

/-- C2 (counterexample): the claim says that from `Establishing`, with
`can_select` (client, nothing selected yet), a received packet with lane
status `Connecting` transitions the lane to `Selected`.  In the code the
`Connecting` arm of `EstablishingState::process_packet` yields `Remain`:
at `sent = true`, `is_server = false`, `has_selected = false` the result
is `Ok(Remain)`, not `Ok(Selected)`. -/
theorem c2_establishing_connecting_remains :
    EstablishingState.processPacket true false false .connecting
      = .ok .remain ∧
    EstablishingState.processPacket true false false .connecting
      ≠ .ok .selected := by
  constructor
  · rfl
  · decide

/-- C2 (amended): from `Establishing`, when `can_select` holds
(`is_server = false`, `has_selected = false`), a received packet with
lane status `Establishing` transitions the lane to `Selected`, while a
received `Connecting` leaves it in `Establishing` (`Remain`) — for either
value of the `sent` flag. -/
theorem c2_establishing_select_on_establishing (sent : Bool) :
    EstablishingState.processPacket sent false false .establishing
      = .ok .selected ∧
    EstablishingState.processPacket sent false false .connecting
      = .ok .remain := by
  cases sent <;> exact ⟨rfl, rfl⟩

/-! ## Claim C3 -/

/-- C3: from `Establishing`, `process_packet` requests a transition to
`Selected` only if the received status is `Establishing` or `Selected`,
and in the received-`Selected` case only if the lane's `sent` flag is
true. -/
theorem c3_establishing_selected_only_if (sent isSelector hasSelected : Bool)
    (st : LaneStatus)
    (h : EstablishingState.processPacket sent isSelector hasSelected st
      = .ok .selected) :
    st = .establishing ∨ (st = .selected ∧ sent = true) := by
  revert h
  cases st <;> cases sent <;> cases isSelector <;> cases hasSelected <;> decide

/-- C3 (witness): the hypothesis of `c3_establishing_selected_only_if` is
satisfiable; at `sent = true`, `is_server = true`, `has_selected = true`,
received `Selected`, the transition is `Ok(Selected)` and the conclusion
holds. -/
theorem c3_establishing_selected_only_if_witness :
    EstablishingState.processPacket true true true .selected
      = .ok .selected ∧
    (LaneStatus.selected = .establishing ∨
      (LaneStatus.selected = .selected ∧ true = true)) :=
  ⟨by decide, c3_establishing_selected_only_if true true true .selected (by decide)⟩

/-! ## Claim C8 -/

theorem writeTo_take8 (s : LaneStatus) (d : List Nat) :
    (PacketData.writeTo ⟨s, d⟩).take 8 = PREAMBLE := by
  have h8 : PREAMBLE.length = 8 := rfl
  rw [PacketData.writeTo, List.append_assoc, ← h8, List.take_left]

theorem writeTo_length (s : LaneStatus) (d : List Nat) :
    (PacketData.writeTo ⟨s, d⟩).length = 9 + d.length := by
  simp [PacketData.writeTo, PREAMBLE]; omega

/-- C8: for every lane status and application-data byte string of length
at most 1391 (the `PacketData::new` limit), parsing the encoded packet
returns the same status and application data; and flipping any single
bit of any of the 8 preamble bytes makes `parse` return `WrongPreamble`.
-/
theorem c8_codec_roundtrip_and_preamble_sensitivity (s : LaneStatus)
    (d : List Nat) (hd : d.length ≤ 1391) :
    PacketData.parse (PacketData.writeTo ⟨s, d⟩) = .ok ⟨s, d⟩ ∧
    ∀ i k, i < 8 → k < 8 →
      PacketData.parse ((PacketData.writeTo ⟨s, d⟩).set i
        (Nat.xor ((PacketData.writeTo ⟨s, d⟩).getD i 0) (2 ^ k)))
        = .error .wrongPreamble := by
  constructor
  · cases s <;>
      simp [PacketData.parse, PacketData.writeTo, PREAMBLE, PREAMBLE_SIZE,
        PACKET_HEADER_SIZE, LANE_STATUS_SIZE, LaneStatus.intoU8, LaneStatus.fromU8]
  · intro i k hi hk
    set buf := PacketData.writeTo ⟨s, d⟩ with hbuf
    have hlen : buf.length = 9 + d.length := writeTo_length s d
    have hilen : i < buf.length := by omega
    have hset_len : (buf.set i (Nat.xor (buf.getD i 0) (2 ^ k))).length = buf.length := by
      simp
    have htake : (buf.set i (Nat.xor (buf.getD i 0) (2 ^ k))).take 8 ≠ PREAMBLE := by
      intro heq
      have h1 : ((buf.set i (Nat.xor (buf.getD i 0) (2 ^ k))).take 8).getD i 0
          = PREAMBLE.getD i 0 := by rw [heq]
      rw [getD_take _ _ _ _ hi, getD_set_self _ _ _ _ hilen] at h1
      have h2 : PREAMBLE.getD i 0 = buf.getD i 0 := by
        rw [← writeTo_take8 s d, getD_take _ _ _ _ hi, hbuf]
      rw [h2] at h1
      exact xor_two_pow_ne _ _ h1
    rw [PacketData.parse]
    rw [if_neg (by
      rw [hset_len, hlen]
      norm_num [PACKET_HEADER_SIZE, PREAMBLE_SIZE, LANE_STATUS_SIZE, PREAMBLE])]
    rw [if_pos (by simpa [PREAMBLE_SIZE] using htake)]

/-- C8 (witness): the length hypothesis is satisfiable, e.g. with status
`Connecting` and application data `[7]`. -/
theorem c8_codec_roundtrip_witness :
    ([7] : List Nat).length ≤ 1391 ∧
    (PacketData.parse (PacketData.writeTo ⟨.connecting, [7]⟩)
        = .ok ⟨.connecting, [7]⟩ ∧
     ∀ i k, i < 8 → k < 8 →
       PacketData.parse ((PacketData.writeTo ⟨.connecting, [7]⟩).set i
         (Nat.xor ((PacketData.writeTo ⟨.connecting, [7]⟩).getD i 0) (2 ^ k)))
         = .error .wrongPreamble) :=
  ⟨by decide, c8_codec_roundtrip_and_preamble_sensitivity .connecting [7] (by decide)⟩

/-! ## Claim C5 -/

/-- C5 (counterexample): the claim says construction succeeds whenever
`my_port_start + lane_count ≤ 65536` and
`remote_port_start + lane_count ≤ 65536`.  At `my_port_start = 65535`,
`lane_count = 1`, `remote_port_start = 1000` both sums are within the
claimed bounds (`65536 ≤ 65536` and `1001 ≤ 65536`), yet
`NonZeroU16::checked_add` returns `None` for `65535 + 1` and
`Puncher::new` panics. -/
theorem c5_new_boundary_counterexample :
    65535 + 1 ≤ 65536 ∧ 1000 + 1 ≤ 65536 ∧
    Puncher.new false 65535 (.v4 [127, 0, 0, 1]) 1000 1 = none := by
  refine ⟨by norm_num, by norm_num, ?_⟩
  rfl

/-- C5 (amended): for all construction arguments in the `NonZeroU16`
ranges, the engine is built exactly when `my_port_start + lane_count ≤
65535` and `remote_port_start + lane_count ≤ 65535` (the sums must fit
in a `u16`); construction aborts when either sum exceeds 65535. -/
theorem c5_new_built_iff (isServer : Bool) (myPortStart remotePortStart laneCount : Nat)
    (remoteAddress : IpAddr)
    (hm : 1 ≤ myPortStart ∧ myPortStart ≤ 65535)
    (hr : 1 ≤ remotePortStart ∧ remotePortStart ≤ 65535)
    (hl : 1 ≤ laneCount ∧ laneCount ≤ 65535) :
    (Puncher.new isServer myPortStart remoteAddress remotePortStart laneCount).isSome
      ↔ (myPortStart + laneCount ≤ 65535 ∧ remotePortStart + laneCount ≤ 65535) := by
  unfold Puncher.new
  split
  · rename_i h
    simp only [Option.isSome_none, Bool.false_eq_true, false_iff]
    omega
  · split
    · rename_i h h'
      simp only [Option.isSome_none, Bool.false_eq_true, false_iff]
      omega
    · rename_i h h'
      simp only [Option.isSome_some, true_iff]
      omega

/-- C5 (witness): the range hypotheses are satisfiable, e.g. at
`my_port_start = 40000`, `remote_port_start = 50000`, `lane_count = 5`.
-/
theorem c5_new_built_iff_witness :
    (1 ≤ 40000 ∧ 40000 ≤ 65535) ∧ (1 ≤ 50000 ∧ 50000 ≤ 65535) ∧
    (1 ≤ 5 ∧ 5 ≤ 65535) ∧
    ((Puncher.new false 40000 (.v4 [127, 0, 0, 1]) 50000 5).isSome
      ↔ (40000 + 5 ≤ 65535 ∧ 50000 + 5 ≤ 65535)) :=
  ⟨by norm_num, by norm_num, by norm_num,
    c5_new_built_iff false 40000 50000 5 (.v4 [127, 0, 0, 1])
      (by norm_num) (by norm_num) (by norm_num)⟩

/-! ## Claim C9 -/

/-- C9 (code bug): the connection code `69.22.4.0 : port_start 65535,
lane_count 1, timestamp 0` is valid per the claim (`port_start +
lane_count = 65536` does not exceed the 65536-port space; its highest
lane port is 65535), and the crate's own `test1` expects it to
round-trip (its grid includes `port_start = 65535`, `lane_count = 1`).
Yet `deserialize_from_bytes` checks `port_start.overflowing_add
(lane_count)` and rejects the serialized form with
`OverflowingLaneCount` instead of returning the original code. -/
theorem c9_connection_code_roundtrip_fails_at_port_boundary :
    ConnectionCode.deserializeFromBytes
        (ConnectionCode.serializeToBytes ⟨.v4 [69, 22, 4, 0], 65535, 1, 0⟩)
      = .error .overflowingLaneCount ∧
    (Except.error .overflowingLaneCount
      ≠ (.ok ⟨.v4 [69, 22, 4, 0], 65535, 1, 0⟩ :
          Except DeserializeError ConnectionCode)) := by
  exact ⟨by decide, by decide⟩

/-! ## Claim C7 -/

/-- C7: for every datagram delivered by `received_from` to an active
lane from the legitimate remote source (matching IP, port inside the
remote range) that parses with lane status `Blocked`, the engine blocks
that lane with `BlockedByRemote` (clearing its `needs_send` and
decrementing `open_lanes_count`) and still returns `Some` of the
packet's application payload. -/
theorem c7_blocked_status_blocks_and_returns_payload (p : Puncher)
    (port i : Nat) (buf : List Nat) (srcAddr : SocketAddr) (pd : PacketData)
    (hport : p.laneIndexOfPort port = some i)
    (hactive : (p.laneAt i).state.isActive = true)
    (hip : srcAddr.ip = p.remoteAddress)
    (hlo : p.remotePortStart ≤ srcAddr.port)
    (hhi : srcAddr.port < p.remotePortStart + p.laneCount)
    (hparse : PacketData.parse buf = .ok pd)
    (hstatus : pd.laneStatus = .blocked) :
    p.receivedFrom (.ok buf srcAddr) port =
      some ({ p with
                lanes := p.lanes.set i ⟨.blocked .blockedByRemote, false⟩
                openLanesCount := p.openLanesCount - 1 },
            some pd.applicationData) := by
  have hlt : i < p.lanes.length := laneIndexOfPort_lt hport
  rw [Puncher.receivedFrom, hport]
  simp only [hactive, Bool.not_true, Bool.false_eq_true, if_false]
  rw [if_neg (by push_neg; exact ⟨hip, hlo, by omega⟩)]
  rw [hparse]
  simp only [hstatus, if_pos rfl]
  rw [Puncher.blockLane,
    if_pos (show i < p.lanes.length ∧ (p.laneAt i).state.isActive = true from
      ⟨hlt, hactive⟩)]
  rfl

/-- C7 (witness): a concrete single-lane client engine receiving a
`Blocked`-status packet with payload `[5]` from the legitimate source. -/
theorem c7_blocked_status_witness :
    (({ myPortStart := 1, remoteAddress := .v4 [1, 2, 3, 4], remotePortStart := 1
        laneCount := 1, openLanesCount := 1, lanes := [Lane.new], isServer := false
        selectedLaneIndex := none } : Puncher).laneIndexOfPort 1 = some 0) ∧
    (({ myPortStart := 1, remoteAddress := .v4 [1, 2, 3, 4], remotePortStart := 1
        laneCount := 1, openLanesCount := 1, lanes := [Lane.new], isServer := false
        selectedLaneIndex := none } : Puncher).receivedFrom
      (.ok (PacketData.writeTo ⟨.blocked, [5]⟩) ⟨.v4 [1, 2, 3, 4], 1⟩) 1 =
      some ({ myPortStart := 1, remoteAddress := .v4 [1, 2, 3, 4], remotePortStart := 1
              laneCount := 1, openLanesCount := 0
              lanes := [⟨.blocked .blockedByRemote, false⟩], isServer := false
              selectedLaneIndex := none }, some [5])) := by
  refine ⟨by decide, ?_⟩
  have h := c7_blocked_status_blocks_and_returns_payload
    { myPortStart := 1, remoteAddress := .v4 [1, 2, 3, 4], remotePortStart := 1
      laneCount := 1, openLanesCount := 1, lanes := [Lane.new], isServer := false
      selectedLaneIndex := none }
    1 0 (PacketData.writeTo ⟨.blocked, [5]⟩) ⟨.v4 [1, 2, 3, 4], 1⟩ ⟨.blocked, [5]⟩
    (by decide) (by decide) (by decide) (by decide) (by decide) (by decide) (by decide)
  exact h

/-! ## Counting and lane-update lemmas -/

theorem activeLanesCount_set : ∀ (l : List Lane) (i : Nat) (x : Lane), i < l.length →
    activeLanesCount (l.set i x) + (if (l.getD i default).state.isActive then 1 else 0)
      = activeLanesCount l + (if x.state.isActive then 1 else 0) := by
  intro l
  induction l with
  | nil => intro i x h; simp at h
  | cons lane rest ih =>
    intro i x h
    cases i with
    | zero => simp [activeLanesCount]; omega
    | succ i =>
      simp only [List.set_cons_succ, activeLanesCount, List.getD_cons_succ]
      have := ih i x (by simpa using h)
      omega

theorem activeLanesCount_replicate (n : Nat) : activeLanesCount (List.replicate n Lane.new) = n := by
  induction n with
  | zero => simp [activeLanesCount]
  | succ n ih =>
    rw [List.replicate_succ]
    simp only [activeLanesCount, show Lane.new.state.isActive = true from rfl, if_pos, ih]
    omega

theorem activeLanesCount_map (l : List Lane) (f : Lane → Lane)
    (hf : ∀ lane, (f lane).state = lane.state) :
    activeLanesCount (l.map f) = activeLanesCount l := by
  induction l with
  | nil => simp [activeLanesCount]
  | cons lane rest ih => simp [activeLanesCount, hf, ih]

theorem closeOtherLanes_length (s : Nat) : ∀ (j : Nat) (l : List Lane),
    (closeOtherLanes s j l).1.length = l.length := by
  intro j l
  induction l generalizing j with
  | nil => simp [closeOtherLanes]
  | cons lane rest ih =>
    simp only [closeOtherLanes]
    split
    · simp [ih]
    · split <;> simp [ih]

theorem closeOtherLanes_getD (s : Nat) : ∀ (j k : Nat) (l : List Lane), k < l.length →
    (closeOtherLanes s j l).1.getD k default =
      (if j + k = s then l.getD k default
       else if (l.getD k default).state.isActive then ⟨.closed, false⟩
       else ⟨(l.getD k default).state, false⟩) := by
  intro j k l
  induction l generalizing j k with
  | nil => intro h; simp at h
  | cons lane rest ih =>
    intro h
    cases k with
    | zero =>
      simp only [closeOtherLanes, Nat.add_zero, List.getD_cons_zero]
      by_cases hj : j = s
      · rw [if_pos hj, if_pos hj]
        simp
      · rw [if_neg hj, if_neg hj]
        by_cases ha : lane.state.isActive
        · rw [if_pos ha, if_pos ha]; simp
        · rw [if_neg ha, if_neg ha]; simp
    | succ k =>
      have hk : k < rest.length := by simpa using h
      have H := ih (j + 1) k hk
      have harith : j + 1 + k = j + (k + 1) := by omega
      rw [harith] at H
      simp only [closeOtherLanes, List.getD_cons_succ]
      by_cases hj : j = s
      · rw [if_pos hj]
        simpa using H
      · rw [if_neg hj]
        by_cases ha : lane.state.isActive
        · rw [if_pos ha]; simpa using H
        · rw [if_neg ha]; simpa using H

theorem closeOtherLanes_count (s : Nat) : ∀ (j : Nat) (l : List Lane),
    activeLanesCount l
      = (closeOtherLanes s j l).2 + activeLanesCount (closeOtherLanes s j l).1 := by
  intro j l
  induction l generalizing j with
  | nil => simp [closeOtherLanes, activeLanesCount]
  | cons lane rest ih =>
    have H := ih (j + 1)
    simp only [closeOtherLanes, activeLanesCount]
    by_cases hj : j = s
    · rw [if_pos hj]
      simp only [activeLanesCount]
      rw [H]
      omega
    · rw [if_neg hj]
      by_cases ha : lane.state.isActive
      · rw [if_pos ha, if_pos ha]
        simp only [activeLanesCount, LaneState.isActive, if_false, Bool.false_eq_true,
          Nat.zero_add]
        rw [H]
        omega
      · rw [if_neg ha, if_neg ha]
        simp only [activeLanesCount]
        dsimp only
        rw [if_neg ha, H]
        omega

/-! ## Specifications of the internal engine helpers -/

theorem getD_set_cases (l : List Lane) (i j : Nat) (x : Lane) (hi : i < l.length) :
    (l.set i x).getD j default = if j = i then x else l.getD j default := by
  by_cases h : j = i
  · subst h; rw [getD_set_self _ _ _ _ hi, if_pos rfl]
  · rw [getD_set_ne _ _ _ _ _ h, if_neg h]

theorem blockLane_eq_some {p : Puncher} {i : Nat} {r : BlockReason} {p' : Puncher}
    (h : p.blockLane i r = some p') :
    i < p.lanes.length ∧ (p.laneAt i).state.isActive = true ∧
    p' = { p with lanes := p.lanes.set i ⟨.blocked r, false⟩
                  openLanesCount := p.openLanesCount - 1 } := by
  unfold Puncher.blockLane at h
  split at h
  · rename_i hc
    exact ⟨hc.1, hc.2, by cases h; rfl⟩
  · cases h

theorem blockLane_inv {p : Puncher} {i : Nat} {r : BlockReason} {p' : Puncher}
    (hInv : PuncherInv p) (h : p.blockLane i r = some p') : PuncherInv p' := by
  obtain ⟨hlt, hact, rfl⟩ := blockLane_eq_some h
  have hcnt := activeLanesCount_set p.lanes i ⟨.blocked r, false⟩ hlt
  constructor
  · show p.openLanesCount - 1 = activeLanesCount (p.lanes.set i ⟨.blocked r, false⟩)
    rw [hInv.count]
    simp only [Puncher.laneAt] at hact
    rw [hact] at hcnt
    simp [LaneState.isActive] at hcnt
    omega
  · intro hnone j hj
    simp only [List.length_set] at hj
    show ((p.lanes.set i ⟨.blocked r, false⟩).getD j default).state.isSelected = false
    rw [getD_set_cases _ _ _ _ hlt]
    by_cases hji : j = i
    · simp [hji, LaneState.isSelected]
    · simp only [if_neg hji]
      exact hInv.selNone hnone j hj
  · intro k hk
    obtain ⟨hk1, hk2, hk3⟩ := hInv.selSome k hk
    refine ⟨by simpa using hk1, ?_, ?_⟩
    · show ((p.lanes.set i ⟨.blocked r, false⟩).getD k default).state.isClosed = false
      rw [getD_set_cases _ _ _ _ hlt]
      by_cases hki : k = i
      · simp [hki, LaneState.isClosed]
      · simp only [if_neg hki]
        exact hk2
    · intro j hj hjk
      simp only [List.length_set] at hj
      show ((p.lanes.set i ⟨.blocked r, false⟩).getD j default).state.isActive = false
      rw [getD_set_cases _ _ _ _ hlt]
      by_cases hji : j = i
      · simp [hji, LaneState.isActive]
      · simp only [if_neg hji]
        exact hk3 j hj hjk
  · intro j hj
    simp only [List.length_set] at hj
    show ((p.lanes.set i ⟨.blocked r, false⟩).getD j default).state.isClosed = true →
      ((p.lanes.set i ⟨.blocked r, false⟩).getD j default).needsSend = false
    rw [getD_set_cases _ _ _ _ hlt]
    by_cases hji : j = i
    · simp [hji]
    · simp only [if_neg hji]
      exact hInv.closedFlag j hj

theorem setSelectedLane_eq_some {p : Puncher} {i : Nat} {p' : Puncher}
    (h : p.setSelectedLane i = some p') :
    p.selectedLaneIndex = none ∧
    p' = { p with selectedLaneIndex := some i
                  lanes := (closeOtherLanes i 0 p.lanes).1
                  openLanesCount := p.openLanesCount - (closeOtherLanes i 0 p.lanes).2 } := by
  unfold Puncher.setSelectedLane at h
  cases hsel : p.selectedLaneIndex with
  | some k => rw [hsel] at h; cases h
  | none =>
      rw [hsel] at h
      refine ⟨rfl, ?_⟩
      cases h
      rfl

theorem nextLaneNeedingResend_eq_some :
    ∀ {l : List Lane} {i : Nat} {l' : List Lane},
    nextLaneNeedingResend l = some (i, l') →
    i < l.length ∧ (l.getD i default).needsSend = true ∧
    l' = l.set i ⟨(l.getD i default).state, false⟩ := by
  intro l
  induction l with
  | nil => intro i l' h; simp [nextLaneNeedingResend] at h
  | cons lane rest ih =>
    intro i l' h
    simp only [nextLaneNeedingResend] at h
    by_cases hs : lane.needsSend
    · rw [if_pos hs] at h
      cases h
      refine ⟨by simp, by simpa using hs, ?_⟩
      simp [hs]
    · rw [if_neg hs] at h
      cases hrec : nextLaneNeedingResend rest with
      | none => rw [hrec] at h; cases h
      | some v =>
        obtain ⟨i0, rest'⟩ := v
        rw [hrec] at h
        simp only [Option.map] at h
        cases h
        obtain ⟨h1, h2, h3⟩ := ih hrec
        exact ⟨by simpa using h1, by simpa using h2, by simp [h3]⟩

theorem tick_eq_selected (p : Puncher) (k : Nat) (hsel : p.selectedLaneIndex = some k)
    (hk : k < p.lanes.length) :
    p.tick = some { p with lanes := p.lanes.set k ⟨(p.laneAt k).state, p.isServer⟩ } := by
  unfold Puncher.tick
  rw [hsel]
  dsimp only
  rw [if_pos hk]

theorem tick_eq_unselected (p : Puncher) (hsel : p.selectedLaneIndex = none) :
    p.tick = some { p with
      lanes := p.lanes.map (fun lane =>
        ⟨lane.state,
          match lane.state with
          | .connecting _ | .establishing _ => true
          | .selected _ => p.isServer
          | .blocked _ | .closed => false⟩) } := by
  unfold Puncher.tick
  rw [hsel]

theorem isClosed_eq_true_iff {s : LaneState} : s.isClosed = true ↔ s = .closed := by
  cases s <;> simp [LaneState.isClosed]

theorem tick_inv {p p' : Puncher} (hInv : PuncherInv p) (h : p.tick = some p') :
    PuncherInv p' := by
  cases hsel : p.selectedLaneIndex with
  | some k =>
    obtain ⟨hk1, hk2, hk3⟩ := hInv.selSome k hsel
    rw [tick_eq_selected p k hsel hk1] at h
    injection h with h
    subst h
    constructor
    · show p.openLanesCount = activeLanesCount (p.lanes.set k ⟨(p.laneAt k).state, p.isServer⟩)
      have hcnt := activeLanesCount_set p.lanes k ⟨(p.laneAt k).state, p.isServer⟩ hk1
      simp only [Puncher.laneAt] at hcnt ⊢
      rw [hInv.count]
      omega
    · intro hnone
      simp only [hsel] at hnone
      cases hnone
    · intro k' hk'
      simp only [hsel] at hk'
      injection hk' with hk'
      subst hk'
      refine ⟨by simpa using hk1, ?_, ?_⟩
      · simp only [Puncher.laneAt]
        rw [getD_set_cases _ _ _ _ hk1, if_pos rfl]
        exact hk2
      · intro j hj hjk
        simp only [List.length_set] at hj
        simp only [Puncher.laneAt]
        rw [getD_set_cases _ _ _ _ hk1, if_neg hjk]
        exact hk3 j hj hjk
    · intro j hj
      simp only [List.length_set] at hj
      simp only [Puncher.laneAt]
      rw [getD_set_cases _ _ _ _ hk1]
      by_cases hjk : j = k
      · rw [if_pos hjk]
        intro hcl
        rw [isClosed_eq_true_iff] at hcl
        dsimp only at hcl
        simp only [Puncher.laneAt] at hk2
        rw [hcl] at hk2
        simp [LaneState.isClosed] at hk2
      · rw [if_neg hjk]
        exact hInv.closedFlag j hj
  | none =>
    rw [tick_eq_unselected p hsel] at h
    injection h with h
    subst h
    constructor
    · show p.openLanesCount = activeLanesCount _
      rw [activeLanesCount_map]
      · exact hInv.count
      · intro lane; rfl
    · intro hnone j hj
      simp only [List.length_map] at hj
      simp only [Puncher.laneAt]
      rw [getD_map _ _ _ _ default hj]
      exact hInv.selNone hsel j hj
    · intro k hk
      simp only [hsel] at hk
      cases hk
    · intro j hj
      simp only [List.length_map] at hj
      simp only [Puncher.laneAt]
      rw [getD_map _ _ _ _ default hj]
      intro hcl
      dsimp only at hcl
      have hcl' : (p.lanes.getD j default).state = .closed := isClosed_eq_true_iff.mp hcl
      show (match (p.lanes.getD j default).state with
        | LaneState.connecting _ | LaneState.establishing _ => true
        | LaneState.selected _ => p.isServer
        | LaneState.blocked _ | LaneState.closed => false) = false
      rw [hcl']

theorem set_lane_inv {p : Puncher} {i : Nat} {x : Lane}
    (hInv : PuncherInv p) (hi : i < p.lanes.length)
    (hact : x.state.isActive = (p.laneAt i).state.isActive)
    (hsel : x.state.isSelected = (p.laneAt i).state.isSelected)
    (hcl : x.state.isClosed = (p.laneAt i).state.isClosed)
    (hns : x.state.isClosed = true → x.needsSend = false) :
    PuncherInv { p with lanes := p.lanes.set i x } := by
  constructor
  · show p.openLanesCount = activeLanesCount (p.lanes.set i x)
    have hcnt := activeLanesCount_set p.lanes i x hi
    simp only [Puncher.laneAt] at hact
    rw [hact] at hcnt
    rw [hInv.count]
    omega
  · intro hnone j hj
    simp only [List.length_set] at hj
    simp only [Puncher.laneAt]
    rw [getD_set_cases _ _ _ _ hi]
    by_cases hji : j = i
    · rw [if_pos hji]
      rw [hsel]
      subst hji
      exact hInv.selNone hnone j hj
    · rw [if_neg hji]
      exact hInv.selNone hnone j hj
  · intro k hk
    obtain ⟨hk1, hk2, hk3⟩ := hInv.selSome k hk
    refine ⟨by simpa using hk1, ?_, ?_⟩
    · simp only [Puncher.laneAt]
      rw [getD_set_cases _ _ _ _ hi]
      by_cases hki : k = i
      · rw [if_pos hki]
        rw [hcl]
        subst hki
        exact hk2
      · rw [if_neg hki]
        exact hk2
    · intro j hj hjk
      simp only [List.length_set] at hj
      simp only [Puncher.laneAt]
      rw [getD_set_cases _ _ _ _ hi]
      by_cases hji : j = i
      · rw [if_pos hji]
        rw [hact]
        subst hji
        exact hk3 j hj hjk
      · rw [if_neg hji]
        exact hk3 j hj hjk
  · intro j hj
    simp only [List.length_set] at hj
    simp only [Puncher.laneAt]
    rw [getD_set_cases _ _ _ _ hi]
    by_cases hji : j = i
    · rw [if_pos hji]
      exact hns
    · rw [if_neg hji]
      exact hInv.closedFlag j hj

theorem sendFailed_inv {p p' : Puncher} {port e : Nat} (hInv : PuncherInv p)
    (h : p.sendFailed port e = some p') : PuncherInv p' := by
  unfold Puncher.sendFailed at h
  cases hidx : p.laneIndexOfPort port with
  | none => rw [hidx] at h; cases h
  | some i =>
    rw [hidx] at h
    dsimp only at h
    split at h
    · exact blockLane_inv hInv h
    · injection h with h
      subst h
      exact hInv

theorem sendTo_inv {p p' : Puncher} {d : List Nat} {out : Option SendInfo}
    (hInv : PuncherInv p) (h : p.sendTo d = some (p', out)) : PuncherInv p' := by
  unfold Puncher.sendTo at h
  cases hnext : nextLaneNeedingResend p.lanes with
  | none =>
    rw [hnext] at h
    injection h with h
    cases h
    exact hInv
  | some v =>
    obtain ⟨i, lanes'⟩ := v
    obtain ⟨hi, hns, hlanes'⟩ := nextLaneNeedingResend_eq_some hnext
    rw [hnext] at h
    dsimp only at h
    split at h
    · cases h
    · rename_i st hst
      split at h
      · cases h
      · rename_i pd hpd
        injection h with h
        have hp' : p' = { p with lanes := lanes'.set i ⟨(p.laneAt i).state.processSent, false⟩ } := by
          cases h; rfl
        subst hp'
        have hset : lanes'.set i ⟨(p.laneAt i).state.processSent, false⟩
            = p.lanes.set i ⟨(p.laneAt i).state.processSent, false⟩ := by
          rw [hlanes', List.set_set]
        rw [hset]
        obtain ⟨ha, hs, hc, _⟩ := processSent_preserves (p.laneAt i).state
        exact set_lane_inv hInv hi ha hs hc (fun _ => rfl)

theorem isActive_true_isClosed_false {s : LaneState} (h : s.isActive = true) :
    s.isClosed = false := by
  cases s <;> simp_all [LaneState.isActive, LaneState.isClosed]

theorem processPacket_ok_establishing {s : LaneState} {a b : Bool} {st : LaneStatus}
    (h : s.processPacket a b st = .ok .establishing) :
    s.isActive = true ∧ s.isSelected = false ∧ s.isClosed = false := by
  cases s with
  | connecting sent => revert h; cases sent <;> cases a <;> cases b <;> cases st <;> decide
  | establishing sent => revert h; cases sent <;> cases a <;> cases b <;> cases st <;> decide
  | selected sent => revert h; cases sent <;> cases a <;> cases b <;> cases st <;> decide
  | closed => revert h; cases a <;> cases b <;> cases st <;> decide
  | blocked r =>
    exfalso
    simp [LaneState.processPacket] at h

theorem processPacket_ok_selected {s : LaneState} {a b : Bool} {st : LaneStatus}
    (h : s.processPacket a b st = .ok .selected) :
    s.isActive = true ∧ s.isSelected = false ∧ s.isClosed = false := by
  cases s with
  | connecting sent => revert h; cases sent <;> cases a <;> cases b <;> cases st <;> decide
  | establishing sent => revert h; cases sent <;> cases a <;> cases b <;> cases st <;> decide
  | selected sent => revert h; cases sent <;> cases a <;> cases b <;> cases st <;> decide
  | closed => revert h; cases a <;> cases b <;> cases st <;> decide
  | blocked r =>
    exfalso
    simp [LaneState.processPacket] at h

theorem setSelectedLane_inv {p : Puncher} {i : Nat} {p' : Puncher}
    (hcount : p.openLanesCount = activeLanesCount p.lanes)
    (hi : i < p.lanes.length)
    (hclosed : (p.laneAt i).state.isClosed = false)
    (h : p.setSelectedLane i = some p') : PuncherInv p' := by
  obtain ⟨hselnone, hp'⟩ := setSelectedLane_eq_some h
  subst hp'
  have hlen := closeOtherLanes_length i 0 p.lanes
  have hgetD := closeOtherLanes_getD i 0
  constructor
  · show p.openLanesCount - (closeOtherLanes i 0 p.lanes).2
      = activeLanesCount (closeOtherLanes i 0 p.lanes).1
    have hc := closeOtherLanes_count i 0 p.lanes
    omega
  · intro hnone
    simp at hnone
  · intro k hk
    dsimp only at hk
    injection hk with hk
    subst hk
    refine ⟨by simpa [hlen] using hi, ?_, ?_⟩
    · show (((closeOtherLanes i 0 p.lanes).1.getD i default).state).isClosed = false
      rw [hgetD i p.lanes hi, if_pos (by omega)]
      exact hclosed
    · intro j hj hjk
      dsimp only [Puncher.laneAt] at hj ⊢
      rw [hlen] at hj
      rw [hgetD j p.lanes hj, if_neg (by omega)]
      by_cases ha : (p.lanes.getD j default).state.isActive
      · rw [if_pos ha]
        rfl
      · rw [if_neg ha]
        simpa using ha
  · intro j hj
    dsimp only [Puncher.laneAt] at hj ⊢
    rw [hlen] at hj
    rw [hgetD j p.lanes hj]
    by_cases hji : 0 + j = i
    · rw [if_pos hji]
      intro hcl
      simp only [Puncher.laneAt] at hclosed
      rw [show j = i from by omega] at hcl
      rw [hcl] at hclosed
      cases hclosed
    · rw [if_neg hji]
      by_cases ha : (p.lanes.getD j default).state.isActive
      · rw [if_pos ha]
        intro _
        rfl
      · rw [if_neg ha]
        intro _
        rfl

theorem receivedFrom_inv {p p' : Puncher} {r : RecvResult} {port : Nat}
    {out : Option (List Nat)} (hInv : PuncherInv p)
    (h : p.receivedFrom r port = some (p', out)) : PuncherInv p' := by
  unfold Puncher.receivedFrom at h
  cases hidx : p.laneIndexOfPort port with
  | none => rw [hidx] at h; cases h
  | some i =>
    rw [hidx] at h
    have hi := laneIndexOfPort_lt hidx
    dsimp only at h
    by_cases hact : (p.laneAt i).state.isActive = true
    case neg =>
      rw [if_pos (by simp [Bool.not_eq_true] at hact; simp [hact])] at h
      injection h with h
      rw [Prod.mk.injEq] at h
      obtain ⟨h1, _⟩ := h
      subst h1
      exact hInv
    case pos =>
      rw [if_neg (by simp [hact])] at h
      cases r with
      | err e =>
        dsimp only at h
        cases hbl : p.blockLane i (.receiveError e) with
        | none => rw [hbl] at h; cases h
        | some q =>
          rw [hbl] at h
          injection h with h
          rw [Prod.mk.injEq] at h
          obtain ⟨h1, _⟩ := h
          subst h1
          exact blockLane_inv hInv hbl
      | ok buf srcAddr =>
        dsimp only at h
        split at h
        · -- interference
          rename_i hintf
          cases hbl : p.blockLane i (.interference srcAddr) with
          | none => rw [hbl] at h; cases h
          | some q =>
            rw [hbl] at h
            injection h with h
            rw [Prod.mk.injEq] at h
            obtain ⟨h1, _⟩ := h
            subst h1
            exact blockLane_inv hInv hbl
        · cases hparse : PacketData.parse buf with
          | error pe =>
            rw [hparse] at h
            dsimp only at h
            cases hbl : p.blockLane i (.badPacket pe) with
            | none => rw [hbl] at h; cases h
            | some q =>
              rw [hbl] at h
              injection h with h
              rw [Prod.mk.injEq] at h
              obtain ⟨h1, _⟩ := h
              subst h1
              exact blockLane_inv hInv hbl
          | ok pd =>
            rw [hparse] at h
            dsimp only at h
            split at h
            · -- status blocked
              cases hbl : p.blockLane i .blockedByRemote with
              | none => rw [hbl] at h; cases h
              | some q =>
                rw [hbl] at h
                injection h with h
                rw [Prod.mk.injEq] at h
                obtain ⟨h1, _⟩ := h
                subst h1
                exact blockLane_inv hInv hbl
            · cases hpp : (p.laneAt i).state.processPacket p.isServer
                  p.selectedLaneIndex.isSome pd.laneStatus with
              | error br =>
                rw [hpp] at h
                dsimp only at h
                cases hbl : p.blockLane i br with
                | none => rw [hbl] at h; cases h
                | some q =>
                  rw [hbl] at h
                  injection h with h
                  rw [Prod.mk.injEq] at h
                  obtain ⟨h1, _⟩ := h
                  subst h1
                  exact blockLane_inv hInv hbl
              | ok tr =>
                rw [hpp] at h
                cases tr with
                | remain =>
                  dsimp only at h
                  injection h with h
                  rw [Prod.mk.injEq] at h
                  obtain ⟨h1, _⟩ := h
                  subst h1
                  exact hInv
                | establishing =>
                  dsimp only at h
                  injection h with h
                  rw [Prod.mk.injEq] at h
                  obtain ⟨h1, _⟩ := h
                  subst h1
                  obtain ⟨ha, hs, hc⟩ := processPacket_ok_establishing hpp
                  exact set_lane_inv hInv hi (by rw [ha]; rfl) (by rw [hs]; rfl)
                    (by rw [hc]; rfl) (by intro hx; cases hx)
                | selected =>
                  dsimp only at h
                  cases hsl : Puncher.setSelectedLane
                      { p with lanes := p.lanes.set i ⟨.selected false, p.isServer⟩ } i with
                  | none => rw [hsl] at h; cases h
                  | some q =>
                    rw [hsl] at h
                    injection h with h
                    rw [Prod.mk.injEq] at h
                    obtain ⟨h1, _⟩ := h
                    subst h1
                    have hcnt := activeLanesCount_set p.lanes i ⟨.selected false, p.isServer⟩ hi
                    simp only [Puncher.laneAt] at hact
                    rw [hact] at hcnt
                    refine setSelectedLane_inv ?_ ?_ ?_ hsl
                    · show p.openLanesCount
                        = activeLanesCount (p.lanes.set i ⟨.selected false, p.isServer⟩)
                      rw [hInv.count]
                      simp only [LaneState.isActive] at hcnt ⊢
                      omega
                    · simpa using hi
                    · show ((p.lanes.set i ⟨.selected false, p.isServer⟩).getD i default).state.isClosed
                        = false
                      rw [getD_set_self _ _ _ _ hi]
                      rfl

theorem new_inv {isServer myPortStart remoteAddress remotePortStart laneCount p}
    (h : Puncher.new isServer myPortStart remoteAddress remotePortStart laneCount = some p) :
    PuncherInv p := by
  unfold Puncher.new at h
  split at h
  · cases h
  · split at h
    · cases h
    · injection h with h
      subst h
      constructor
      · exact (activeLanesCount_replicate laneCount).symm
      · intro _ j hj
        simp only [List.length_replicate] at hj
        simp only [Puncher.laneAt]
        rw [getD_replicate _ _ _ _ hj]
        rfl
      · intro k hk
        cases hk
      · intro j hj
        simp only [List.length_replicate] at hj
        simp only [Puncher.laneAt]
        rw [getD_replicate _ _ _ _ hj]
        intro hcl
        cases hcl

theorem step_inv {p p' : Puncher} {op : Op} (hInv : PuncherInv p)
    (h : p.step op = some p') : PuncherInv p' := by
  cases op with
  | receivedFrom r port =>
    simp only [Puncher.step] at h
    cases hrf : p.receivedFrom r port with
    | none => rw [hrf] at h; cases h
    | some v =>
      obtain ⟨q, out⟩ := v
      rw [hrf] at h
      injection h with h
      subst h
      exact receivedFrom_inv hInv hrf
  | sendTo d =>
    simp only [Puncher.step] at h
    cases hst : p.sendTo d with
    | none => rw [hst] at h; cases h
    | some v =>
      obtain ⟨q, out⟩ := v
      rw [hst] at h
      injection h with h
      subst h
      exact sendTo_inv hInv hst
  | sendFailed port e =>
    simp only [Puncher.step] at h
    exact sendFailed_inv hInv h
  | tick =>
    simp only [Puncher.step] at h
    exact tick_inv hInv h
  | poll t =>
    simp only [Puncher.step] at h
    injection h with h
    subst h
    exact hInv

theorem reachable_inv {p : Puncher} (h : Reachable p) : PuncherInv p := by
  induction h with
  | init hnew => exact new_inv hnew
  | step _ hstep ih => exact step_inv ih hstep

theorem isSelected_imp_isActive {s : LaneState} (h : s.isSelected = true) :
    s.isActive = true := by
  cases s <;> simp_all [LaneState.isSelected, LaneState.isActive]

theorem isActive_false_iff {s : LaneState} :
    s.isActive = false ↔ (s.isClosed = true ∨ s.isBlocked = true) := by
  cases s <;> simp [LaneState.isActive, LaneState.isClosed, LaneState.isBlocked]

theorem status_isSome_of_isClosed_false {s : LaneState} (h : s.isClosed = false) :
    s.status.isSome = true := by
  cases s <;> simp_all [LaneState.isClosed, LaneState.status]

/-- C1: in every reachable engine state, at most one lane is in the
`Selected` state; and whenever `selected_lane_index` is `Some k`, every
lane other than lane `k` is in the `Closed` or `Blocked` state. -/
theorem c1_at_most_one_selected (p : Puncher) (h : Reachable p) :
    (∀ j₁ j₂, j₁ < p.lanes.length → j₂ < p.lanes.length →
      (p.laneAt j₁).state.isSelected = true → (p.laneAt j₂).state.isSelected = true →
      j₁ = j₂) ∧
    (∀ k, p.selectedLaneIndex = some k → ∀ j, j < p.lanes.length → j ≠ k →
      (p.laneAt j).state.isClosed = true ∨ (p.laneAt j).state.isBlocked = true) := by
  have hInv := reachable_inv h
  constructor
  · intro j₁ j₂ h₁ h₂ hs₁ hs₂
    cases hsel : p.selectedLaneIndex with
    | none =>
      rw [hInv.selNone hsel j₁ h₁] at hs₁
      cases hs₁
    | some k =>
      obtain ⟨_, _, hk3⟩ := hInv.selSome k hsel
      have e₁ : j₁ = k := by
        by_contra hne
        have hina := hk3 j₁ h₁ hne
        rw [isSelected_imp_isActive hs₁] at hina
        cases hina
      have e₂ : j₂ = k := by
        by_contra hne
        have hina := hk3 j₂ h₂ hne
        rw [isSelected_imp_isActive hs₂] at hina
        cases hina
      rw [e₁, e₂]
  · intro k hk j hj hjk
    obtain ⟨_, _, hk3⟩ := hInv.selSome k hk
    exact isActive_false_iff.mp (hk3 j hj hjk)

/-- C1 (witness): a freshly constructed single-lane engine is reachable
and satisfies the property. -/
theorem c1_at_most_one_selected_witness :
    (∀ j₁ j₂,
      j₁ < ({ myPortStart := 1, remoteAddress := .v4 [1, 2, 3, 4], remotePortStart := 1
              laneCount := 1, openLanesCount := 1
              lanes := [⟨.connecting false, true⟩], isServer := true
              selectedLaneIndex := none } : Puncher).lanes.length →
      j₂ < ({ myPortStart := 1, remoteAddress := .v4 [1, 2, 3, 4], remotePortStart := 1
              laneCount := 1, openLanesCount := 1
              lanes := [⟨.connecting false, true⟩], isServer := true
              selectedLaneIndex := none } : Puncher).lanes.length →
      (({ myPortStart := 1, remoteAddress := .v4 [1, 2, 3, 4], remotePortStart := 1
          laneCount := 1, openLanesCount := 1
          lanes := [⟨.connecting false, true⟩], isServer := true
          selectedLaneIndex := none } : Puncher).laneAt j₁).state.isSelected = true →
      (({ myPortStart := 1, remoteAddress := .v4 [1, 2, 3, 4], remotePortStart := 1
          laneCount := 1, openLanesCount := 1
          lanes := [⟨.connecting false, true⟩], isServer := true
          selectedLaneIndex := none } : Puncher).laneAt j₂).state.isSelected = true →
      j₁ = j₂) ∧
    (∀ k, ({ myPortStart := 1, remoteAddress := .v4 [1, 2, 3, 4], remotePortStart := 1
             laneCount := 1, openLanesCount := 1
             lanes := [⟨.connecting false, true⟩], isServer := true
             selectedLaneIndex := none } : Puncher).selectedLaneIndex = some k →
      ∀ j, j < ({ myPortStart := 1, remoteAddress := .v4 [1, 2, 3, 4], remotePortStart := 1
                  laneCount := 1, openLanesCount := 1
                  lanes := [⟨.connecting false, true⟩], isServer := true
                  selectedLaneIndex := none } : Puncher).lanes.length → j ≠ k →
      (({ myPortStart := 1, remoteAddress := .v4 [1, 2, 3, 4], remotePortStart := 1
          laneCount := 1, openLanesCount := 1
          lanes := [⟨.connecting false, true⟩], isServer := true
          selectedLaneIndex := none } : Puncher).laneAt j).state.isClosed = true ∨
      (({ myPortStart := 1, remoteAddress := .v4 [1, 2, 3, 4], remotePortStart := 1
          laneCount := 1, openLanesCount := 1
          lanes := [⟨.connecting false, true⟩], isServer := true
          selectedLaneIndex := none } : Puncher).laneAt j).state.isBlocked = true) :=
  c1_at_most_one_selected _
    (Reachable.init (show Puncher.new true 1 (.v4 [1, 2, 3, 4]) 1 1 = _ by decide))

/-- C6: in every reachable engine state (i.e. after construction and
after every engine call), `open_lanes_count` equals the number of lanes
whose state is `Connecting`, `Establishing` or `Selected` (the active
lanes). -/
theorem c6_open_lanes_count (p : Puncher) (h : Reachable p) :
    p.openLanesCount = activeLanesCount p.lanes :=
  (reachable_inv h).count

/-- C6 (witness): the accounting equation at a concrete reachable
engine. -/
theorem c6_open_lanes_count_witness :
    ({ myPortStart := 1, remoteAddress := .v4 [1, 2, 3, 4], remotePortStart := 1
       laneCount := 1, openLanesCount := 1
       lanes := [⟨.connecting false, true⟩], isServer := true
       selectedLaneIndex := none } : Puncher).openLanesCount
      = activeLanesCount ({ myPortStart := 1, remoteAddress := .v4 [1, 2, 3, 4]
                            remotePortStart := 1, laneCount := 1, openLanesCount := 1
                            lanes := [⟨.connecting false, true⟩], isServer := true
                            selectedLaneIndex := none } : Puncher).lanes :=
  c6_open_lanes_count _
    (Reachable.init (show Puncher.new true 1 (.v4 [1, 2, 3, 4]) 1 1 = _ by decide))

/-- C10 (counterexample): the claim says every `Blocked` or `Closed`
lane has `needs_send == false` after every engine operation.  A concrete
reachable run refutes it: a single-lane server engine establishes,
sends, ratifies a `Selected`, then the selected lane is blocked by
interference; the following `tick` sets the blocked selected lane's
`needs_send` back to `true` (`lanes[selected].needs_send = is_server`).
-/
theorem c10_blocked_lane_needs_send_counterexample :
    Puncher.new true 1 (.v4 [1, 2, 3, 4]) 1 1
      = some { myPortStart := 1, remoteAddress := .v4 [1, 2, 3, 4], remotePortStart := 1
               laneCount := 1, openLanesCount := 1
               lanes := [⟨.connecting false, true⟩], isServer := true
               selectedLaneIndex := none } ∧
    ({ myPortStart := 1, remoteAddress := .v4 [1, 2, 3, 4], remotePortStart := 1
       laneCount := 1, openLanesCount := 1
       lanes := [⟨.connecting false, true⟩], isServer := true
       selectedLaneIndex := none } : Puncher).run
      [ .receivedFrom (.ok (PacketData.writeTo ⟨.connecting, []⟩) ⟨.v4 [1, 2, 3, 4], 1⟩) 1
      , .sendTo []
      , .receivedFrom (.ok (PacketData.writeTo ⟨.selected, []⟩) ⟨.v4 [1, 2, 3, 4], 1⟩) 1
      , .receivedFrom (.ok (PacketData.writeTo ⟨.connecting, []⟩) ⟨.v4 [9, 9, 9, 9], 1⟩) 1
      , .tick ]
      = some { myPortStart := 1, remoteAddress := .v4 [1, 2, 3, 4], remotePortStart := 1
               laneCount := 1, openLanesCount := 0
               lanes := [⟨.blocked (.interference ⟨.v4 [9, 9, 9, 9], 1⟩), true⟩]
               isServer := true, selectedLaneIndex := some 0 } ∧
    (LaneState.blocked (.interference ⟨.v4 [9, 9, 9, 9], 1⟩)).isBlocked = true := by
  refine ⟨by decide, by decide, by decide⟩

/-- C10 (amended): in every reachable engine state, every `Closed` lane
has `needs_send == false`, so `send_to` never picks a `Closed` lane and
the `LaneState::status` panic for `Closed` lanes is unreachable:
`send_to` returns (does not abort) for any application data within the
1391-byte limit.  (`Blocked` lanes, by contrast, can have `needs_send`
re-armed by `tick` on the server once the selected lane itself is
blocked; sending on a `Blocked` lane does not panic, since `status` is
defined for `Blocked`.) -/
theorem c10_sendTo_never_aborts (p : Puncher) (h : Reachable p) :
    (∀ j, j < p.lanes.length → (p.laneAt j).state.isClosed = true →
      (p.laneAt j).needsSend = false) ∧
    (∀ appData : List Nat, appData.length ≤ 1391 → (p.sendTo appData).isSome = true) := by
  have hInv := reachable_inv h
  refine ⟨hInv.closedFlag, ?_⟩
  intro appData hlen
  unfold Puncher.sendTo
  cases hnext : nextLaneNeedingResend p.lanes with
  | none => rfl
  | some v =>
    obtain ⟨i, lanes'⟩ := v
    obtain ⟨hi, hns, hlanes'⟩ := nextLaneNeedingResend_eq_some hnext
    dsimp only
    have hncl : (p.laneAt i).state.isClosed = false := by
      by_contra hc
      simp only [Bool.not_eq_false] at hc
      have hflag := hInv.closedFlag i hi hc
      simp only [Puncher.laneAt] at hflag
      rw [hflag] at hns
      cases hns
    have hstat : ((p.laneAt i).state.processSent).status.isSome = true :=
      status_isSome_of_isClosed_false
        (by rw [(processSent_preserves (p.laneAt i).state).2.2.1]; exact hncl)
    cases hst : ((p.laneAt i).state.processSent).status with
    | none => rw [hst] at hstat; cases hstat
    | some st =>
      dsimp only
      unfold PacketData.new?
      rw [if_neg (by
        simp only [MAX_REASONABLE_APPLICATION_DATA, MAX_REASONABLE_PAYLOAD,
          PACKET_HEADER_SIZE, PREAMBLE_SIZE, LANE_STATUS_SIZE, PREAMBLE, not_lt]
        simp only [List.length_cons, List.length_nil]
        omega)]
      rfl

/-- C10 (witness): the amended property at a concrete reachable engine. -/
theorem c10_sendTo_never_aborts_witness :
    (∀ j, j < ({ myPortStart := 1, remoteAddress := .v4 [1, 2, 3, 4], remotePortStart := 1
                 laneCount := 1, openLanesCount := 1
                 lanes := [⟨.connecting false, true⟩], isServer := true
                 selectedLaneIndex := none } : Puncher).lanes.length →
      (({ myPortStart := 1, remoteAddress := .v4 [1, 2, 3, 4], remotePortStart := 1
          laneCount := 1, openLanesCount := 1
          lanes := [⟨.connecting false, true⟩], isServer := true
          selectedLaneIndex := none } : Puncher).laneAt j).state.isClosed = true →
      (({ myPortStart := 1, remoteAddress := .v4 [1, 2, 3, 4], remotePortStart := 1
          laneCount := 1, openLanesCount := 1
          lanes := [⟨.connecting false, true⟩], isServer := true
          selectedLaneIndex := none } : Puncher).laneAt j).needsSend = false) ∧
    (∀ appData : List Nat, appData.length ≤ 1391 →
      (({ myPortStart := 1, remoteAddress := .v4 [1, 2, 3, 4], remotePortStart := 1
          laneCount := 1, openLanesCount := 1
          lanes := [⟨.connecting false, true⟩], isServer := true
          selectedLaneIndex := none } : Puncher).sendTo appData).isSome = true) :=
  c10_sendTo_never_aborts _
    (Reachable.init (show Puncher.new true 1 (.v4 [1, 2, 3, 4]) 1 1 = _ by decide))

theorem tick_eq_none_oob (p : Puncher) (k : Nat) (hsel : p.selectedLaneIndex = some k)
    (hk : ¬ k < p.lanes.length) : p.tick = none := by
  unfold Puncher.tick
  rw [hsel]
  dsimp only
  rw [if_neg hk]

theorem blockLane_terminal {p q : Puncher} {i : Nat} {r : BlockReason}
    (hbl : p.blockLane i r = some q) :
    q.lanes.length = p.lanes.length ∧
    ∀ j, j < p.lanes.length → (p.laneAt j).state.isActive = false →
      (q.laneAt j).state = (p.laneAt j).state := by
  obtain ⟨hi, hact, rfl⟩ := blockLane_eq_some hbl
  refine ⟨by simp, ?_⟩
  intro j hj hterm
  have hne : j ≠ i := by
    intro e
    rw [e, hact] at hterm
    cases hterm
  simp only [Puncher.laneAt]
  rw [getD_set_ne _ _ _ _ _ hne]

theorem tick_state_preserved {p p' : Puncher} (h : p.tick = some p') :
    p'.lanes.length = p.lanes.length ∧
    ∀ j, j < p.lanes.length → (p'.laneAt j).state = (p.laneAt j).state := by
  cases hsel : p.selectedLaneIndex with
  | some k =>
    by_cases hk : k < p.lanes.length
    · rw [tick_eq_selected p k hsel hk] at h
      injection h with h
      subst h
      refine ⟨by simp, ?_⟩
      intro j hj
      simp only [Puncher.laneAt]
      rw [getD_set_cases _ _ _ _ hk]
      by_cases hjk : j = k
      · rw [if_pos hjk, hjk]
      · rw [if_neg hjk]
    · rw [tick_eq_none_oob p k hsel hk] at h
      cases h
  | none =>
    rw [tick_eq_unselected p hsel] at h
    injection h with h
    subst h
    refine ⟨by simp, ?_⟩
    intro j hj
    simp only [Puncher.laneAt]
    rw [getD_map _ _ _ _ default hj]

theorem sendTo_terminal {p p' : Puncher} {d : List Nat} {out : Option SendInfo}
    (h : p.sendTo d = some (p', out)) :
    p'.lanes.length = p.lanes.length ∧
    ∀ j, j < p.lanes.length → (p.laneAt j).state.isActive = false →
      (p'.laneAt j).state = (p.laneAt j).state := by
  unfold Puncher.sendTo at h
  cases hnext : nextLaneNeedingResend p.lanes with
  | none =>
    rw [hnext] at h
    injection h with h
    rw [Prod.mk.injEq] at h
    obtain ⟨h1, _⟩ := h
    subst h1
    exact ⟨rfl, fun _ _ _ => rfl⟩
  | some v =>
    obtain ⟨i, lanes'⟩ := v
    obtain ⟨hi, hns, hlanes'⟩ := nextLaneNeedingResend_eq_some hnext
    rw [hnext] at h
    dsimp only at h
    split at h
    · cases h
    · split at h
      · cases h
      · injection h with h
        rw [Prod.mk.injEq] at h
        obtain ⟨h1, _⟩ := h
        subst h1
        have hlen : (lanes'.set i ⟨(p.laneAt i).state.processSent, false⟩).length
            = p.lanes.length := by
          rw [hlanes']
          simp
        refine ⟨hlen, ?_⟩
        intro j hj hterm
        simp only [Puncher.laneAt, hlanes', List.set_set]
        rw [getD_set_cases _ _ _ _ hi]
        by_cases hji : j = i
        · rw [if_pos hji]
          dsimp only
          rw [hji] at hterm
          simp only [Puncher.laneAt] at hterm
          rw [(processSent_preserves _).2.2.2 hterm, hji]
        · rw [if_neg hji]

theorem sendFailed_terminal {p p' : Puncher} {port e : Nat}
    (h : p.sendFailed port e = some p') :
    p'.lanes.length = p.lanes.length ∧
    ∀ j, j < p.lanes.length → (p.laneAt j).state.isActive = false →
      (p'.laneAt j).state = (p.laneAt j).state := by
  unfold Puncher.sendFailed at h
  cases hidx : p.laneIndexOfPort port with
  | none => rw [hidx] at h; cases h
  | some i =>
    rw [hidx] at h
    dsimp only at h
    split at h
    · exact blockLane_terminal h
    · injection h with h
      subst h
      exact ⟨rfl, fun _ _ _ => rfl⟩

theorem setSelectedLane_terminal {p p' : Puncher} {i : Nat}
    (h : p.setSelectedLane i = some p') :
    p'.lanes.length = p.lanes.length ∧
    ∀ j, j < p.lanes.length → (p.laneAt j).state.isActive = false →
      (p'.laneAt j).state = (p.laneAt j).state := by
  obtain ⟨hselnone, hp'⟩ := setSelectedLane_eq_some h
  subst hp'
  have hlen := closeOtherLanes_length i 0 p.lanes
  refine ⟨hlen, ?_⟩
  intro j hj hterm
  simp only [Puncher.laneAt] at hterm ⊢
  rw [closeOtherLanes_getD i 0 j p.lanes hj]
  by_cases hji : 0 + j = i
  · rw [if_pos hji]
  · rw [if_neg hji, if_neg (by rw [hterm]; exact Bool.false_ne_true)]

theorem receivedFrom_terminal {p p' : Puncher} {r : RecvResult} {port : Nat}
    {out : Option (List Nat)} (h : p.receivedFrom r port = some (p', out)) :
    p'.lanes.length = p.lanes.length ∧
    ∀ j, j < p.lanes.length → (p.laneAt j).state.isActive = false →
      (p'.laneAt j).state = (p.laneAt j).state := by
  unfold Puncher.receivedFrom at h
  cases hidx : p.laneIndexOfPort port with
  | none => rw [hidx] at h; cases h
  | some i =>
    rw [hidx] at h
    have hi := laneIndexOfPort_lt hidx
    dsimp only at h
    by_cases hact : (p.laneAt i).state.isActive = true
    case neg =>
      rw [if_pos (by simp [Bool.not_eq_true] at hact; simp [hact])] at h
      injection h with h
      rw [Prod.mk.injEq] at h
      obtain ⟨h1, _⟩ := h
      subst h1
      exact ⟨rfl, fun _ _ _ => rfl⟩
    case pos =>
      rw [if_neg (by simp [hact])] at h
      cases r with
      | err e =>
        dsimp only at h
        cases hbl : p.blockLane i (.receiveError e) with
        | none => rw [hbl] at h; cases h
        | some q =>
          rw [hbl] at h
          injection h with h
          rw [Prod.mk.injEq] at h
          obtain ⟨h1, _⟩ := h
          subst h1
          exact blockLane_terminal hbl
      | ok buf srcAddr =>
        dsimp only at h
        split at h
        · cases hbl : p.blockLane i (.interference srcAddr) with
          | none => rw [hbl] at h; cases h
          | some q =>
            rw [hbl] at h
            injection h with h
            rw [Prod.mk.injEq] at h
            obtain ⟨h1, _⟩ := h
            subst h1
            exact blockLane_terminal hbl
        · cases hparse : PacketData.parse buf with
          | error pe =>
            rw [hparse] at h
            dsimp only at h
            cases hbl : p.blockLane i (.badPacket pe) with
            | none => rw [hbl] at h; cases h
            | some q =>
              rw [hbl] at h
              injection h with h
              rw [Prod.mk.injEq] at h
              obtain ⟨h1, _⟩ := h
              subst h1
              exact blockLane_terminal hbl
          | ok pd =>
            rw [hparse] at h
            dsimp only at h
            split at h
            · cases hbl : p.blockLane i .blockedByRemote with
              | none => rw [hbl] at h; cases h
              | some q =>
                rw [hbl] at h
                injection h with h
                rw [Prod.mk.injEq] at h
                obtain ⟨h1, _⟩ := h
                subst h1
                exact blockLane_terminal hbl
            · cases hpp : (p.laneAt i).state.processPacket p.isServer
                  p.selectedLaneIndex.isSome pd.laneStatus with
              | error br =>
                rw [hpp] at h
                dsimp only at h
                cases hbl : p.blockLane i br with
                | none => rw [hbl] at h; cases h
                | some q =>
                  rw [hbl] at h
                  injection h with h
                  rw [Prod.mk.injEq] at h
                  obtain ⟨h1, _⟩ := h
                  subst h1
                  exact blockLane_terminal hbl
              | ok tr =>
                rw [hpp] at h
                cases tr with
                | remain =>
                  dsimp only at h
                  injection h with h
                  rw [Prod.mk.injEq] at h
                  obtain ⟨h1, _⟩ := h
                  subst h1
                  exact ⟨rfl, fun _ _ _ => rfl⟩
                | establishing =>
                  dsimp only at h
                  injection h with h
                  rw [Prod.mk.injEq] at h
                  obtain ⟨h1, _⟩ := h
                  subst h1
                  refine ⟨by simp, ?_⟩
                  intro j hj hterm
                  have hne : j ≠ i := by
                    intro e
                    rw [e, hact] at hterm
                    cases hterm
                  simp only [Puncher.laneAt]
                  rw [getD_set_ne _ _ _ _ _ hne]
                | selected =>
                  dsimp only at h
                  cases hsl : Puncher.setSelectedLane
                      { p with lanes := p.lanes.set i ⟨.selected false, p.isServer⟩ } i with
                  | none => rw [hsl] at h; cases h
                  | some q =>
                    rw [hsl] at h
                    injection h with h
                    rw [Prod.mk.injEq] at h
                    obtain ⟨h1, _⟩ := h
                    subst h1
                    obtain ⟨hqlen, hq⟩ := setSelectedLane_terminal hsl
                    have hlen1 : ({ p with
                        lanes := p.lanes.set i ⟨.selected false, p.isServer⟩ } :
                          Puncher).lanes.length = p.lanes.length := by simp
                    refine ⟨by rw [hqlen, hlen1], ?_⟩
                    intro j hj hterm
                    have hne : j ≠ i := by
                      intro e
                      rw [e, hact] at hterm
                      cases hterm
                    have hsame : (({ p with
                        lanes := p.lanes.set i ⟨.selected false, p.isServer⟩ } :
                          Puncher).laneAt j).state = (p.laneAt j).state := by
                      simp only [Puncher.laneAt]
                      rw [getD_set_ne _ _ _ _ _ hne]
                    rw [hq j (by rw [hlen1]; exact hj) (by rw [hsame]; exact hterm), hsame]

/-- C4 (counterexample): the claim says `tick` never re-arms the
`needs_send` of a `Blocked` or `Closed` lane.  In the concrete reachable
run below, a single-lane server engine selects its lane, the selected
lane is then blocked by interference (`needs_send` cleared), and the
next `tick` sets the blocked lane's `needs_send` back to `true` while
its state stays `Blocked`. -/
theorem c4_tick_rearm_counterexample :
    Puncher.new true 1 (.v4 [1, 2, 3, 4]) 1 1
      = some { myPortStart := 1, remoteAddress := .v4 [1, 2, 3, 4], remotePortStart := 1
               laneCount := 1, openLanesCount := 1
               lanes := [⟨.connecting false, true⟩], isServer := true
               selectedLaneIndex := none } ∧
    ({ myPortStart := 1, remoteAddress := .v4 [1, 2, 3, 4], remotePortStart := 1
       laneCount := 1, openLanesCount := 1
       lanes := [⟨.connecting false, true⟩], isServer := true
       selectedLaneIndex := none } : Puncher).run
      [ .receivedFrom (.ok (PacketData.writeTo ⟨.connecting, []⟩) ⟨.v4 [1, 2, 3, 4], 1⟩) 1
      , .sendTo []
      , .receivedFrom (.ok (PacketData.writeTo ⟨.selected, []⟩) ⟨.v4 [1, 2, 3, 4], 1⟩) 1
      , .receivedFrom (.ok (PacketData.writeTo ⟨.connecting, []⟩) ⟨.v4 [9, 9, 9, 9], 1⟩) 1 ]
      = some { myPortStart := 1, remoteAddress := .v4 [1, 2, 3, 4], remotePortStart := 1
               laneCount := 1, openLanesCount := 0
               lanes := [⟨.blocked (.interference ⟨.v4 [9, 9, 9, 9], 1⟩), false⟩]
               isServer := true, selectedLaneIndex := some 0 } ∧
    ({ myPortStart := 1, remoteAddress := .v4 [1, 2, 3, 4], remotePortStart := 1
       laneCount := 1, openLanesCount := 0
       lanes := [⟨.blocked (.interference ⟨.v4 [9, 9, 9, 9], 1⟩), false⟩]
       isServer := true, selectedLaneIndex := some 0 } : Puncher).tick
      = some { myPortStart := 1, remoteAddress := .v4 [1, 2, 3, 4], remotePortStart := 1
               laneCount := 1, openLanesCount := 0
               lanes := [⟨.blocked (.interference ⟨.v4 [9, 9, 9, 9], 1⟩), true⟩]
               isServer := true, selectedLaneIndex := some 0 } ∧
    (LaneState.blocked (.interference ⟨.v4 [9, 9, 9, 9], 1⟩)).isActive = false := by
  refine ⟨by decide, by decide, by decide, by decide⟩

/-- C4 (amended): in every reachable engine state, a lane in the
`Blocked` or `Closed` state keeps exactly the same state across every
non-panicking operation:

* no operation changes the `LaneState` of an inactive lane (and the lane
  vector's length never changes);
* `received_from` on an inactive lane returns `None` without modifying
  anything;
* `tick` arms the `needs_send` of an inactive lane only in one case: the
  lane is itself the selected lane (subsequently blocked) and the engine
  is the server — otherwise an inactive lane's `needs_send` stays or
  becomes `false`;
* `LaneState::process_packet` on a terminal lane requests no transition
  (`Remain`). -/
theorem c4_terminal_lanes_frozen (p : Puncher) (h : Reachable p) :
    (∀ op p', p.step op = some p' →
      p'.lanes.length = p.lanes.length ∧
      ∀ j, j < p.lanes.length → (p.laneAt j).state.isActive = false →
        (p'.laneAt j).state = (p.laneAt j).state) ∧
    (∀ r port i, p.laneIndexOfPort port = some i →
      (p.laneAt i).state.isActive = false →
      p.receivedFrom r port = some (p, none)) ∧
    (∀ p', p.tick = some p' →
      ∀ j, j < p.lanes.length → (p.laneAt j).state.isActive = false →
        (p'.laneAt j).needsSend = true →
        (p.laneAt j).needsSend = true ∨
          (p.selectedLaneIndex = some j ∧ p.isServer = true)) ∧
    (∀ (s : LaneState) (a b : Bool) (st : LaneStatus), s.isActive = false →
      s.processPacket a b st = .ok .remain) := by
  refine ⟨?_, ?_, ?_, ?_⟩
  · intro op p' hstep
    cases op with
    | receivedFrom r port =>
      simp only [Puncher.step] at hstep
      cases hrf : p.receivedFrom r port with
      | none => rw [hrf] at hstep; cases hstep
      | some v =>
        obtain ⟨q, out⟩ := v
        rw [hrf] at hstep
        injection hstep with hstep
        subst hstep
        exact receivedFrom_terminal hrf
    | sendTo d =>
      simp only [Puncher.step] at hstep
      cases hst : p.sendTo d with
      | none => rw [hst] at hstep; cases hstep
      | some v =>
        obtain ⟨q, out⟩ := v
        rw [hst] at hstep
        injection hstep with hstep
        subst hstep
        exact sendTo_terminal hst
    | sendFailed port e =>
      simp only [Puncher.step] at hstep
      exact sendFailed_terminal hstep
    | tick =>
      simp only [Puncher.step] at hstep
      obtain ⟨h1, h2⟩ := tick_state_preserved hstep
      exact ⟨h1, fun j hj _ => h2 j hj⟩
    | poll t =>
      simp only [Puncher.step] at hstep
      injection hstep with hstep
      subst hstep
      exact ⟨rfl, fun _ _ _ => rfl⟩
  · intro r port i hidx hterm
    unfold Puncher.receivedFrom
    rw [hidx]
    dsimp only
    rw [if_pos (by rw [hterm]; rfl)]
  · intro p' ht j hj hterm hns
    cases hsel : p.selectedLaneIndex with
    | some k =>
      by_cases hk : k < p.lanes.length
      · rw [tick_eq_selected p k hsel hk] at ht
        injection ht with ht
        subst ht
        simp only [Puncher.laneAt] at hns
        rw [getD_set_cases _ _ _ _ hk] at hns
        by_cases hjk : j = k
        · rw [if_pos hjk] at hns
          dsimp only at hns
          right
          subst hjk
          exact ⟨rfl, hns⟩
        · rw [if_neg hjk] at hns
          left
          exact hns
      · rw [tick_eq_none_oob p k hsel hk] at ht
        cases ht
    | none =>
      rw [tick_eq_unselected p hsel] at ht
      injection ht with ht
      subst ht
      simp only [Puncher.laneAt] at hns hterm
      rw [getD_map _ _ _ _ default hj] at hns
      dsimp only at hns
      cases hstate : (p.lanes.getD j default).state with
      | connecting sent =>
        rw [hstate] at hterm
        exact absurd hterm (by cases sent <;> decide)
      | establishing sent =>
        rw [hstate] at hterm
        exact absurd hterm (by cases sent <;> decide)
      | selected sent =>
        rw [hstate] at hterm
        exact absurd hterm (by cases sent <;> decide)
      | closed =>
        rw [hstate] at hns
        dsimp only at hns
        cases hns
      | blocked r =>
        rw [hstate] at hns
        dsimp only at hns
        cases hns
  · intro s a b st hterm
    cases s with
    | connecting sent => exact absurd hterm (by cases sent <;> decide)
    | establishing sent => exact absurd hterm (by cases sent <;> decide)
    | selected sent => exact absurd hterm (by cases sent <;> decide)
    | closed => rfl
    | blocked r => rfl

/-- C4 (witness): the amended property at a concrete reachable engine. -/
theorem c4_terminal_lanes_frozen_witness :
    (∀ op p',
      ({ myPortStart := 1, remoteAddress := .v4 [1, 2, 3, 4], remotePortStart := 1
         laneCount := 1, openLanesCount := 1
         lanes := [⟨.connecting false, true⟩], isServer := true
         selectedLaneIndex := none } : Puncher).step op = some p' →
      p'.lanes.length
        = ({ myPortStart := 1, remoteAddress := .v4 [1, 2, 3, 4], remotePortStart := 1
             laneCount := 1, openLanesCount := 1
             lanes := [⟨.connecting false, true⟩], isServer := true
             selectedLaneIndex := none } : Puncher).lanes.length ∧
      ∀ j, j < ({ myPortStart := 1, remoteAddress := .v4 [1, 2, 3, 4], remotePortStart := 1
                  laneCount := 1, openLanesCount := 1
                  lanes := [⟨.connecting false, true⟩], isServer := true
                  selectedLaneIndex := none } : Puncher).lanes.length →
        (({ myPortStart := 1, remoteAddress := .v4 [1, 2, 3, 4], remotePortStart := 1
            laneCount := 1, openLanesCount := 1
            lanes := [⟨.connecting false, true⟩], isServer := true
            selectedLaneIndex := none } : Puncher).laneAt j).state.isActive = false →
        (p'.laneAt j).state
          = (({ myPortStart := 1, remoteAddress := .v4 [1, 2, 3, 4], remotePortStart := 1
                laneCount := 1, openLanesCount := 1
                lanes := [⟨.connecting false, true⟩], isServer := true
                selectedLaneIndex := none } : Puncher).laneAt j).state) ∧
    (∀ r port i,
      ({ myPortStart := 1, remoteAddress := .v4 [1, 2, 3, 4], remotePortStart := 1
         laneCount := 1, openLanesCount := 1
         lanes := [⟨.connecting false, true⟩], isServer := true
         selectedLaneIndex := none } : Puncher).laneIndexOfPort port = some i →
      (({ myPortStart := 1, remoteAddress := .v4 [1, 2, 3, 4], remotePortStart := 1
          laneCount := 1, openLanesCount := 1
          lanes := [⟨.connecting false, true⟩], isServer := true
          selectedLaneIndex := none } : Puncher).laneAt i).state.isActive = false →
      ({ myPortStart := 1, remoteAddress := .v4 [1, 2, 3, 4], remotePortStart := 1
         laneCount := 1, openLanesCount := 1
         lanes := [⟨.connecting false, true⟩], isServer := true
         selectedLaneIndex := none } : Puncher).receivedFrom r port
        = some ({ myPortStart := 1, remoteAddress := .v4 [1, 2, 3, 4], remotePortStart := 1
                  laneCount := 1, openLanesCount := 1
                  lanes := [⟨.connecting false, true⟩], isServer := true
                  selectedLaneIndex := none }, none)) ∧
    (∀ p',
      ({ myPortStart := 1, remoteAddress := .v4 [1, 2, 3, 4], remotePortStart := 1
         laneCount := 1, openLanesCount := 1
         lanes := [⟨.connecting false, true⟩], isServer := true
         selectedLaneIndex := none } : Puncher).tick = some p' →
      ∀ j, j < ({ myPortStart := 1, remoteAddress := .v4 [1, 2, 3, 4], remotePortStart := 1
                  laneCount := 1, openLanesCount := 1
                  lanes := [⟨.connecting false, true⟩], isServer := true
                  selectedLaneIndex := none } : Puncher).lanes.length →
        (({ myPortStart := 1, remoteAddress := .v4 [1, 2, 3, 4], remotePortStart := 1
            laneCount := 1, openLanesCount := 1
            lanes := [⟨.connecting false, true⟩], isServer := true
            selectedLaneIndex := none } : Puncher).laneAt j).state.isActive = false →
        (p'.laneAt j).needsSend = true →
        (({ myPortStart := 1, remoteAddress := .v4 [1, 2, 3, 4], remotePortStart := 1
            laneCount := 1, openLanesCount := 1
            lanes := [⟨.connecting false, true⟩], isServer := true
            selectedLaneIndex := none } : Puncher).laneAt j).needsSend = true ∨
        (({ myPortStart := 1, remoteAddress := .v4 [1, 2, 3, 4], remotePortStart := 1
            laneCount := 1, openLanesCount := 1
            lanes := [⟨.connecting false, true⟩], isServer := true
            selectedLaneIndex := none } : Puncher).selectedLaneIndex = some j ∧
          ({ myPortStart := 1, remoteAddress := .v4 [1, 2, 3, 4], remotePortStart := 1
             laneCount := 1, openLanesCount := 1
             lanes := [⟨.connecting false, true⟩], isServer := true
             selectedLaneIndex := none } : Puncher).isServer = true)) ∧
    (∀ (s : LaneState) (a b : Bool) (st : LaneStatus), s.isActive = false →
      s.processPacket a b st = .ok .remain) :=
  c4_terminal_lanes_frozen _
    (Reachable.init (show Puncher.new true 1 (.v4 [1, 2, 3, 4]) 1 1 = _ by decide))

end PortalPuncher
